import Mathlib

/-!
Verification development for the coffeeAI conversational ordering pipeline
(`core/llm_utils.py`, `core/order_processor.py`, `core/rag.py`).

The Python code is shallowly embedded: strings are Lean `String`/`List Char`,
Python `str.lower()` is modelled on ASCII letters, Python regular-expression
matching is implemented as deterministic scanners that reproduce the concrete
patterns used by the source (each pattern is simple enough that its
backtracking behaviour is deterministic), Python `float` money arithmetic is
modelled over `ℚ`, and the effectful collaborators (LLM backend, vector
retriever, cart/order store) are explicit parameters or state.
-/

namespace CoffeeAI

/-! ## Python-string primitives -/

/-- ASCII case folding of one character, the fragment of `str.lower()`
exercised by the source's keyword lists (which are all ASCII). -/
def pyLowerChar (c : Char) : Char :=
  if 'A' ≤ c ∧ c ≤ 'Z' then Char.ofNat (c.toNat + 32) else c

def pyLowerL (cs : List Char) : List Char := cs.map pyLowerChar

def pyLower (s : String) : String := String.mk (pyLowerL s.data)

/-- Python `\s` / `str.split()` whitespace over ASCII. -/
def isPySpace (c : Char) : Bool :=
  c = ' ' ∨ c = '\t' ∨ c = '\n' ∨ c = '\r' ∨ c = '\x0b' ∨ c = '\x0c'

def isDigitCh (c : Char) : Bool := '0' ≤ c ∧ c ≤ '9'

/-- Python `sub in hay` substring containment. -/
def containsL (sub : List Char) : List Char → Bool
  | [] => sub.isEmpty
  | c :: t => sub.isPrefixOf (c :: t) || containsL sub t

def containsSub (hay sub : String) : Bool := containsL sub.data hay.data

/-- Number of words of Python `s.split()` (whitespace-run splitting,
leading/trailing whitespace ignored); `inW` says whether the previous
character was inside a word. -/
def wordCountAux : List Char → Bool → Nat
  | [], _ => 0
  | c :: t, inW =>
    if isPySpace c then wordCountAux t false
    else (if inW then 0 else 1) + wordCountAux t true

def wordCount (s : String) : Nat := wordCountAux s.data false

/-- Python `str.strip()`: drop leading and trailing whitespace. -/
def pyStripL (cs : List Char) : List Char :=
  ((cs.dropWhile isPySpace).reverse.dropWhile isPySpace).reverse

def pyStrip (s : String) : String := String.mk (pyStripL s.data)

/-- Source: `kwList.any (fun kw => kw in query_lower)` — the pervasive Python idiom
`any(keyword in query_lower for keyword in keywords)`. -/
def anyKeywordIn (kws : List String) (lowered : String) : Bool :=
  kws.any (fun kw => containsSub lowered kw)

/-! ## `llm_utils.classify_intent` — keyword data translated verbatim -/

def order_taking_keywords : List String :=
  ["i want", "i'd like", "can i get", "can i have", "i'll take", "i'll have",
   "place order", "make order", "order for me", "i need", "give me",
   "add to cart", "put in cart", "add to my order", "include", "also add",
   "i'll order", "let me order", "order now",
   "yes add it", "yes add that", "add it", "add that", "yes please add",
   "take it", "i'll take that", "yes please", "sounds good", "perfect",
   "yes to cart", "add to my cart", "put it in cart", "yes add to cart"]

def confirmation_keywords : List String :=
  ["yes", "yeah", "yep", "sure", "okay", "ok", "that one", "the first one",
   "the second one", "correct", "right", "exactly"]

def checkout_keywords : List String :=
  ["checkout", "complete order", "place my order", "finalize order",
   "proceed to checkout", "ready to order", "confirm order", "finish order",
   "complete my order", "submit order", "process order"]

def payment_keywords : List String :=
  ["pay with", "payment method", "i'll pay", "cash payment", "card payment",
   "upi payment", "digital wallet", "credit card", "debit card",
   "phonepe", "gpay", "paytm", "amazon pay", "cash", "card", "upi"]

def cart_keywords : List String :=
  ["cart", "basket", "my order", "what's in my", "show my", "remove from",
   "delete from", "change quantity", "update my", "clear cart", "empty cart",
   "view cart", "check cart", "modify order", "edit order"]

def order_status_keywords : List String :=
  ["order status", "track order", "where is my", "delivery status",
   "order confirmation", "receipt", "order number", "my orders"]

def sales_keywords : List String :=
  ["price", "cost", "available", "stock", "catalog", "shop", "store",
   "discount", "offer", "promo", "new", "recommendation", "suggest",
   "tell me about", "what do you have", "show me", "browse", "menu",
   "do you have", "do you sell", "any", "which", "what kind", "what type",
   "organic coffee", "coffee", "tea", "beans", "drink", "beverage",
   "flavors", "sizes", "options", "varieties", "selection"]

def refund_keywords : List String :=
  ["refund", "return", "exchange", "cancel", "money back", "replacement",
   "damaged", "defective", "wrong", "mistake", "complaint", "issue"]

def support_keywords : List String :=
  ["help", "support", "contact", "hours", "location", "store", "delivery",
   "shipping", "payment", "account", "login", "register"]

/-- Source: `classify_intent(query)`.  The Python body is a cascade of
`if any(kw in query_lower ...): return ...` checks; the confirmation check is
nested (`if any(...): if len(query.strip().split()) <= 2: return`), and when
the inner length guard fails control falls through to the checkout check, so
it flattens to a conjunction. -/
def classify_intent (query : String) : String :=
  let query_lower := pyLower query
  if anyKeywordIn order_taking_keywords query_lower then "order_taking"
  else if anyKeywordIn confirmation_keywords query_lower
          && decide (wordCount query ≤ 2) then "confirmation"
  else if anyKeywordIn checkout_keywords query_lower then "checkout"
  else if anyKeywordIn payment_keywords query_lower then "payment_method"
  else if anyKeywordIn cart_keywords query_lower then "cart_management"
  else if anyKeywordIn order_status_keywords query_lower then "order_status"
  else if anyKeywordIn sales_keywords query_lower then "sales"
  else if anyKeywordIn refund_keywords query_lower then "refund"
  else if anyKeywordIn support_keywords query_lower then "support"
  else "general"

/-- Source: `extract_payment_method(query)`; the dict iteration order is the literal
order cash, card, upi, digital_wallet. -/
def extract_payment_method (query : String) : Option String :=
  let ql := pyLower query
  if anyKeywordIn ["cash", "cash payment", "pay cash", "pay with cash"] ql then some "cash"
  else if anyKeywordIn ["card", "credit card", "debit card", "card payment", "pay with card"] ql then some "card"
  else if anyKeywordIn ["upi", "phonepe", "gpay", "google pay", "paytm upi", "bhim", "upi payment"] ql then some "upi"
  else if anyKeywordIn ["paytm", "amazon pay", "mobikwik", "freecharge", "wallet", "digital wallet"] ql then some "digital_wallet"
  else none

/-- Source: `is_safe_query(query)`: fixed denylist, case-insensitive substring match. -/
def is_safe_query (query : String) : Bool :=
  let banned := ["kill", "murder", "harm", "die", "bomb", "weapon", "stab", "suicide"]
  !(anyKeywordIn banned (pyLower query))

/-! ## `order_processor.extract_order_intent_from_response`

The three regular expressions of the source are embedded as deterministic
scanners.  Each pattern is free of genuinely nondeterministic backtracking:
every `\s*` is followed either by a non-whitespace literal (so maximal munch
is exact) or, in `Size:\s*([^,]+)`, interacts with `[^,]+` in a way resolved
explicitly in `sizeValue` below. -/

def strL (s : String) : List Char := s.data

/-- Match a literal case-insensitively (the patterns run under
`re.IGNORECASE`); returns the rest of the input. -/
def expectCI : List Char → List Char → Option (List Char)
  | [], cs => some cs
  | _ :: _, [] => none
  | l :: ls, c :: cs => if pyLowerChar l = pyLowerChar c then expectCI ls cs else none

/-- Match a literal case-sensitively (for the product-citation pattern, which
is compiled without flags). -/
def expectLit : List Char → List Char → Option (List Char)
  | [], cs => some cs
  | _ :: _, [] => none
  | l :: ls, c :: cs => if l = c then expectLit ls cs else none

/-- Source: `\s*` (maximal munch). -/
def skipWs (cs : List Char) : List Char := cs.dropWhile isPySpace

/-- Source: `(\d+)`: maximal nonempty digit run, returned raw together with the rest. -/
def readDigits (cs : List Char) : Option (List Char × List Char) :=
  let ds := cs.takeWhile isDigitCh
  if ds.isEmpty then none else some (ds, cs.dropWhile isDigitCh)

/-- Source: `\s*([^,]+)` as it behaves after `Size:`.  The greedy `\s*` first takes
the maximal whitespace run `w`; if a non-comma character follows, the capture
is the maximal non-comma run from there.  Otherwise the engine backtracks one
whitespace character, which then forms a one-character capture (possible only
when `w` is nonempty). -/
def sizeValue (cs : List Char) : Option (List Char × List Char) :=
  let w := cs.takeWhile isPySpace
  let r := cs.dropWhile isPySpace
  match r with
  | [] => if w.isEmpty then none else some ([w.getLastD ' '], r)
  | c :: _ =>
    if c = ',' then (if w.isEmpty then none else some ([w.getLastD ' '], r))
    else some (r.takeWhile (fun x => x ≠ ','), r.dropWhile (fun x => x ≠ ','))

/-- Source: `(?:,\s*Size:\s*([^,]+))?` — on failure the group matches empty and the
input is left untouched. -/
def parseSizeGroup (cs : List Char) : Option (List Char) × List Char :=
  match cs with
  | ',' :: cs1 =>
    (match expectCI (strL "Size:") (skipWs cs1) with
     | some cs2 =>
       (match sizeValue cs2 with
        | some pr => (some pr.1, pr.2)
        | none => (none, cs))
     | none => (none, cs))
  | _ => (none, cs)

/-- Source: `(?:,\s*Quantity:\s*(\d+))?`. -/
def parseQtyGroup (cs : List Char) : Option (List Char) × List Char :=
  match cs with
  | ',' :: cs1 =>
    (match expectCI (strL "Quantity:") (skipWs cs1) with
     | some cs2 =>
       (match readDigits (skipWs cs2) with
        | some pr => (some pr.1, pr.2)
        | none => (none, cs))
     | none => (none, cs))
  | _ => (none, cs)

/-- The three raw capture groups of one `ADD TO CART` directive match. -/
structure RawDirective where
  pid : List Char
  size : Option (List Char)
  qty : Option (List Char)
deriving Repr, DecidableEq

/-- Source: `(\d+)(?:,\s*Size:\s*([^,]+))?(?:,\s*Quantity:\s*(\d+))?` — the capture
groups after the `Product ID` literal (entered at the `\s*` before the
digits). -/
def matchDirectiveRest (cs1 : List Char) : Option (RawDirective × List Char) :=
  match readDigits (skipWs cs1) with
  | none => none
  | some pr =>
    let szr := parseSizeGroup pr.2
    let qtr := parseQtyGroup szr.2
    some ({pid := pr.1, size := szr.1, qty := qtr.1}, qtr.2)

/-- Source: `Product ID\s*(\d+)(?:,\s*Size:\s*([^,]+))?(?:,\s*Quantity:\s*(\d+))?`,
the shared tail of both directive patterns (entered just after the colon of
the `ADD TO CART` head, i.e. at the `\s*` before `Product ID`). -/
def matchDirectiveBody (cs : List Char) : Option (RawDirective × List Char) :=
  match expectCI (strL "Product ID") (skipWs cs) with
  | none => none
  | some cs1 => matchDirectiveRest cs1

/-- Source: `🛒\s*\*\*ADD TO CART\*\*:\s*Product ID ...` at the head of the input. -/
def matchAddToCartEmojiAt (cs : List Char) : Option (RawDirective × List Char) :=
  match expectLit (strL "🛒") cs with
  | none => none
  | some cs1 =>
    match expectCI (strL "**ADD TO CART**:") (skipWs cs1) with
    | none => none
    | some cs2 => matchDirectiveBody cs2

/-- Source: `ADD TO CART:\s*Product ID ...` at the head of the input — note the
alternative pattern has no emoji and also no `**` bold markers. -/
def matchAddToCartAltAt (cs : List Char) : Option (RawDirective × List Char) :=
  match expectCI (strL "ADD TO CART:") cs with
  | none => none
  | some cs1 => matchDirectiveBody cs1

/-- Source: `re.findall` driver: try the matcher at each position, left to right,
non-overlapping (continue after the end of a match).  Fuel equals the input
length; each step consumes at least one character. -/
def scanAll {α : Type} (m : List Char → Option (α × List Char)) : Nat → List Char → List α
  | 0, _ => []
  | _ + 1, [] => []
  | n + 1, c :: rest =>
    match m (c :: rest) with
    | some (a, r) => a :: scanAll m n r
    | none => scanAll m n rest

def findAll {α : Type} (m : List Char → Option (α × List Char)) (cs : List Char) : List α :=
  scanAll m cs.length cs

/-- Raw captures of `\*\*([^*]+)\*\*\s*\(ID:\s*(\d+)\)\s*-\s*[₹$]([0-9.,]+)`. -/
structure RawCitation where
  name : List Char
  pid : List Char
  price : List Char
deriving Repr, DecidableEq

def isPriceCh (c : Char) : Bool := isDigitCh c || c = '.' || c = ','

def matchCitationAt (cs : List Char) : Option (RawCitation × List Char) :=
  match expectLit (strL "**") cs with
  | none => none
  | some cs1 =>
    let name := cs1.takeWhile (fun c => c ≠ '*')
    if name.isEmpty then none else
    match expectLit (strL "**") (cs1.dropWhile (fun c => c ≠ '*')) with
    | none => none
    | some cs2 =>
      match expectLit (strL "(ID:") (skipWs cs2) with
      | none => none
      | some cs3 =>
        match readDigits (skipWs cs3) with
        | none => none
        | some (pid, cs4) =>
          match expectLit (strL ")") cs4 with
          | none => none
          | some cs5 =>
            match expectLit (strL "-") (skipWs cs5) with
            | none => none
            | some cs6 =>
              match skipWs cs6 with
              | [] => none
              | c :: cs7 =>
                if c = '₹' ∨ c = '$' then
                  let price := cs7.takeWhile isPriceCh
                  if price.isEmpty then none
                  else some ({name := name, pid := pid, price := price},
                             cs7.dropWhile isPriceCh)
                else none

/-- One extracted item.  Tier-1 items carry `product_id`/`quantity`/`size`;
tier-2 items carry `product_id`/`product_name`/`price`/`quantity`.  Python's
`float(price.replace(',', ''))` is modelled by the comma-cleaned price text
(no claim inspects the numeric value; Python would raise on text that is not
float-parseable, see `floatTextOk`). -/
structure OrderItemData where
  product_id : Nat
  quantity : Nat
  size : Option String := none
  product_name : Option String := none
  price : Option String := none
deriving Repr, DecidableEq

structure OrderIntentResult where
  has_order_action : Bool
  action_type : Option String
  items : List OrderItemData
  instructions : List String
deriving Repr, DecidableEq

/-- Python `int()` on a captured nonempty digit run. -/
def charsToNat (ds : List Char) : Nat :=
  ds.foldl (fun a c => 10 * a + (c.toNat - 48)) 0

/-- Python `float()` accepts the comma-cleaned price exactly when it has at
least one digit and at most one dot (the captures contain only `[0-9.,]`). -/
def floatTextOk (price : List Char) : Bool :=
  let cleaned := price.filter (fun x => x ≠ ',')
  cleaned.any isDigitCh && (cleaned.filter (fun x => x = '.')).length ≤ 1

def directiveItem (d : RawDirective) : OrderItemData :=
  { product_id := charsToNat d.pid
  , quantity := match d.qty with | some q => charsToNat q | none => 1
  , size := match d.size with | some s => some (String.mk (pyStripL s)) | none => none }

def directiveInstruction (d : RawDirective) : String :=
  "Add Product ID " ++ String.mk d.pid ++ " to cart"

def citationItem (c : RawCitation) : OrderItemData :=
  { product_id := charsToNat c.pid
  , quantity := 1
  , product_name := some (String.mk (pyStripL c.name))
  , price := some (String.mk (c.price.filter (fun x => x ≠ ','))) }

/-- The primary (emoji) pattern's matches; if there are none, the
alternative pattern's matches. -/
def findDirectives (response : String) : List RawDirective :=
  let emoji := findAll matchAddToCartEmojiAt response.data
  if emoji.isEmpty then findAll matchAddToCartAltAt response.data else emoji

def findCitations (response : String) : List RawCitation :=
  findAll matchCitationAt response.data

/-- Source: `order_keywords` of the fallback tier, verbatim — note `"shall I add"`
keeps its capital `I` in the source although it is compared against a lowered
string, so it can never match. -/
def fallback_order_keywords : List String :=
  ["add to your cart", "would you like to add", "shall I add", "adding to cart",
   "successfully added", "added to cart", "item added", "order confirmed",
   "perfect! adding", "great choice! adding", "excellent! i'll add"]

def fallback_confirmation_keywords : List String :=
  ["yes, i'll add", "absolutely! adding", "sure thing! adding",
   "coming right up", "perfect choice", "great selection"]

def extract_order_intent_from_response (response : String) : OrderIntentResult :=
  let add_matches := findDirectives response
  if !add_matches.isEmpty then
    { has_order_action := true
    , action_type := some "add_to_cart"
    , items := add_matches.map directiveItem
    , instructions := add_matches.map directiveInstruction }
  else
    let product_matches := findCitations response
    let is_order_context := anyKeywordIn fallback_order_keywords (pyLower response)
    let is_confirmation := anyKeywordIn fallback_confirmation_keywords (pyLower response)
    if !product_matches.isEmpty && (is_order_context || is_confirmation) then
      { has_order_action := true
      , action_type := some "suggest_add_to_cart"
      , items := product_matches.map citationItem
      , instructions := [] }
    else
      { has_order_action := false, action_type := none, items := [], instructions := [] }

/-! ## Cart / order state machine (`order_processor.py`)

The external cart store (`database/db_service.py`) is modelled as an explicit
`CartSnapshot` value threaded through the operations; `clear_cart` is the
state update to the empty snapshot.  Money arithmetic (`float` in Python) is
modelled over `ℚ`.  Backend calls that can return a falsy value or raise are
modelled by explicit outcome parameters; a raised exception corresponds to
the `except` branch of the Python method that catches it. -/

structure CartItem where
  product_id : Nat
  quantity : Nat
  unit_price : ℚ
  total_price : ℚ
  selected_size : Option String := none
  product_name : String := "Unknown"
deriving Repr, DecidableEq

/-- The dict returned by `cart_service.get_cart`: the store's authoritative
`total_items` and `total_amount` accompany the item rows. -/
structure CartSnapshot where
  items : List CartItem
  total_items : Nat
  total_amount : ℚ
deriving Repr, DecidableEq

def clearedCart : CartSnapshot := { items := [], total_items := 0, total_amount := 0 }

/-- Display item assembled by `get_cart_summary`. -/
structure FormattedCartItem where
  name : String
  id : Nat
  quantity : Nat
  size : Option String
  price : ℚ
deriving Repr, DecidableEq

/-- Two-decimal rendering used for `₹{x:.2f}` display text; claims never
inspect rendered money text, so rounding is plain floor on cents. -/
def money2 (q : ℚ) : String :=
  let cents : Int := (q * 100).floor
  toString (cents / 100) ++ "." ++
    (let r := (cents % 100).natAbs
     (if r < 10 then "0" else "") ++ toString r)

def format_cart_for_chat (items : List FormattedCartItem) (total : ℚ)
    (total_quantity : Nat) : String :=
  if items.isEmpty then "Your cart is empty." else
  let lines := ["**CURRENT CART:**"] ++
    items.map (fun it =>
      let size_info := match it.size with
        | some s => if s ≠ "Regular" ∧ s ≠ "" then " (" ++ s ++ ")" else ""
        | none => ""
      "- " ++ it.name ++ size_info ++ " - Qty: " ++ toString it.quantity ++
        " - ₹" ++ money2 it.price) ++
    ["\n**Cart Total**: ₹" ++ money2 total, "**Total Items**: " ++ toString total_quantity]
  String.intercalate "\n" lines

structure CartSummaryData where
  empty : Bool
  message : String := ""
  items : List FormattedCartItem := []
  item_count : Nat := 0
  total : ℚ := 0
  formatted_summary : String := ""
deriving Repr, DecidableEq

/-- Source: `get_cart_summary(session_id, cart_service, user_id)`: the fetched cart is
the explicit `cart` argument (a `None`/missing cart behaves as the empty
snapshot). -/
def get_cart_summary (cart : CartSnapshot) : CartSummaryData :=
  if cart.items.isEmpty then
    { empty := true
    , message := "Your cart is currently empty. Would you like to browse our menu?"
    , item_count := 0, total := 0 }
  else
    let formatted_items := cart.items.map (fun it =>
      { name := it.product_name, id := it.product_id, quantity := it.quantity
      , size := it.selected_size, price := it.total_price : FormattedCartItem })
    { empty := false
    , items := formatted_items
    , item_count := cart.total_items
    , total := cart.total_amount
    , formatted_summary :=
        format_cart_for_chat formatted_items cart.total_amount cart.total_items }

/-- Source: `0.18  # 18% GST` — exact as a rational. -/
def tax_rate : ℚ := 18 / 100

structure CheckoutSummaryData where
  ready_for_checkout : Bool
  message : String := ""
  subtotal : ℚ := 0
  tax_amount : ℚ := 0
  total_amount : ℚ := 0
  item_count : Nat := 0
  items : List FormattedCartItem := []
  checkout_message : String := ""
deriving Repr, DecidableEq

def create_checkout_summary (cart : CartSnapshot) : CheckoutSummaryData :=
  let cart_summary := get_cart_summary cart
  if cart_summary.empty then
    { ready_for_checkout := false
    , message := "Your cart is empty. Add some items before checkout!" }
  else
    let subtotal := cart_summary.total
    let tax_amount := subtotal * tax_rate
    let total_amount := subtotal + tax_amount
    { ready_for_checkout := true
    , subtotal := subtotal
    , tax_amount := tax_amount
    , total_amount := total_amount
    , item_count := cart_summary.item_count
    , items := cart_summary.items
    , checkout_message :=
        "\n**ORDER SUMMARY**\nSubtotal: ₹" ++ money2 subtotal ++
        "\nTax (18%): ₹" ++ money2 tax_amount ++
        "\n**Total: ₹" ++ money2 total_amount ++ "**\n\nItems: " ++
        toString cart_summary.item_count ++
        "\n\nReady to place your order? Just say \"checkout\" or \"place order\" and I'll guide you through the payment process!\n" }

/-- Outcome of one `cart_service.add_to_cart` call. -/
inductive AddOutcome
  | ok
  | rejected
  | failed (msg : String)
deriving Repr, DecidableEq

structure CartActionResult where
  success : Bool
  message : String
  cart_updated : Bool
  items_added : List OrderItemData
deriving Repr, DecidableEq

/-- The record appended to `items_added` for a successful add (the keys
`product_id`, `quantity`, `size`). -/
def addedRec (it : OrderItemData) : OrderItemData :=
  { product_id := it.product_id, quantity := it.quantity, size := it.size }

/-- The `for item in action_data["items"]` loop of `process_cart_action`:
returns the records of the items successfully added to the external cart
before completion or before the first raising call, together with the
exception text if one was raised (terminating the loop). -/
def cartActionLoop (b : Nat → AddOutcome) : List OrderItemData → Nat →
    List OrderItemData × Option String
  | [], _ => ([], none)
  | it :: rest, k =>
    match b k with
    | .failed m => ([], some m)
    | .ok =>
      let t := cartActionLoop b rest (k + 1)
      (addedRec it :: t.1, t.2)
    | .rejected => cartActionLoop b rest (k + 1)

/-- Source: `process_cart_action(session_id, action_data, cart_service, user_id)`.
`b k` is the behaviour of the `k`-th `add_to_cart` call; the exception branch
models the method's own `except` handler (the caller never sees a raise). -/
def process_cart_action (action : OrderIntentResult) (cartServicePresent : Bool)
    (b : Nat → AddOutcome) : CartActionResult :=
  if !action.has_order_action || !cartServicePresent then
    { success := false, message := "", cart_updated := false, items_added := [] }
  else
    let r := cartActionLoop b action.items 0
    match r.2 with
    | some m =>
      { success := false
      , message := "Sorry, there was an error adding items to your cart: " ++ m
      , cart_updated := !r.1.isEmpty
      , items_added := r.1 }
    | none =>
      if !r.1.isEmpty then
        { success := true
        , message := "Successfully added " ++ toString r.1.length ++ " item(s) to your cart!"
        , cart_updated := true
        , items_added := r.1 }
      else
        { success := false
        , message := "No items were added to the cart."
        , cart_updated := false
        , items_added := [] }

structure OrderRec where
  id : Nat
  order_number : String
deriving Repr, DecidableEq

/-- Outcome of the single `order_service.create_order` call. -/
inductive OrderOutcome
  | created (r : OrderRec)
  | rejected
  | failed (msg : String)
deriving Repr, DecidableEq

structure SaveOrderResult where
  success : Bool
  message : String
  order_id : Option Nat
  order_number : Option String
deriving Repr, DecidableEq

/-- Row of `order_data["order_items"]`. -/
structure OrderItemRow where
  product_id : Nat
  quantity : Nat
  unit_price : ℚ
  total_price : ℚ
  selected_size : Option String
deriving Repr, DecidableEq

/-- The `order_data` dict assembled by `save_chat_order_to_database`. -/
structure OrderData where
  status : String
  total_amount : ℚ
  tax_amount : ℚ
  discount_amount : ℚ
  final_amount : ℚ
  payment_status : String
  payment_method : String
  notes : String
  order_items : List OrderItemRow
deriving Repr, DecidableEq

def mkOrderData (cart : CartSnapshot) (payment_method : String)
    (notes : Option String) : OrderData :=
  let subtotal := cart.total_amount
  let tax_amount := subtotal * tax_rate
  let total_amount := subtotal + tax_amount
  { status := "confirmed"
  , total_amount := subtotal
  , tax_amount := tax_amount
  , discount_amount := 0
  , final_amount := total_amount
  , payment_status := "pending"
  , payment_method := payment_method
  , notes := match notes with | some n => "Chat Order - " ++ n | none => "Chat Order"
  , order_items := cart.items.map (fun it =>
      { product_id := it.product_id, quantity := it.quantity
      , unit_price := it.unit_price, total_price := it.total_price
      , selected_size := it.selected_size : OrderItemRow }) }

/-- Source: `save_chat_order_to_database`: returns the result together with the cart
store state afterwards.  `clear_cart` is modelled as the reliable state
update to the empty snapshot; `beh` is the `create_order` call's behaviour
(`failed` = raised, caught by the method's `except`). -/
def save_chat_order_to_database (cart : CartSnapshot) (payment_method : String)
    (servicesPresent : Bool) (beh : OrderOutcome) (notes : Option String) :
    SaveOrderResult × CartSnapshot :=
  if !servicesPresent then
    ({ success := false, message := "Required services not available"
     , order_id := none, order_number := none }, cart)
  else if cart.items.isEmpty then
    ({ success := false, message := "Cart is empty. Cannot create order."
     , order_id := none, order_number := none }, cart)
  else
    let _order_data := mkOrderData cart payment_method notes
    match beh with
    | .created r =>
      ({ success := true
       , message := "Order " ++ r.order_number ++ " created successfully!"
       , order_id := some r.id, order_number := some r.order_number }, clearedCart)
    | .rejected =>
      ({ success := false, message := "Failed to create order in database"
       , order_id := none, order_number := none }, cart)
    | .failed m =>
      ({ success := false, message := "Error creating order: " ++ m
       , order_id := none, order_number := none }, cart)

structure PaymentMethodInfo where
  id : String
  name : String
  description : String
deriving Repr, DecidableEq

def get_available_payment_methods : List PaymentMethodInfo :=
  [ { id := "cash", name := "Cash Payment", description := "Pay with cash at pickup/delivery" }
  , { id := "card", name := "Card Payment", description := "Credit/Debit card payment" }
  , { id := "upi", name := "UPI Payment", description := "Pay via UPI (PhonePe, GPay, Paytm)" }
  , { id := "digital_wallet", name := "Digital Wallet", description := "Paytm, Amazon Pay, etc." } ]

structure CheckoutResult where
  checkout_stage : String
  message : String
  data_checkout_summary : Option CheckoutSummaryData := none
  data_order : Option SaveOrderResult := none
deriving Repr, DecidableEq

/-- Source: `process_checkout_request(session_id, payment_method, ...)`: returns the
result with the cart store state afterwards. -/
def process_checkout_request (payment_method : Option String) (cart : CartSnapshot)
    (servicesPresent : Bool) (beh : OrderOutcome) : CheckoutResult × CartSnapshot :=
  let checkout_summary := create_checkout_summary cart
  if !checkout_summary.ready_for_checkout then
    ({ checkout_stage := "summary"
     , message := if checkout_summary.message = "" then "Cart is empty" else checkout_summary.message }, cart)
  else
    match payment_method with
    | none =>
      ({ checkout_stage := "payment_method"
       , message := "\n" ++ checkout_summary.checkout_message ++
           "\n\n**PAYMENT OPTIONS:**\n1. 💵 Cash Payment - Pay at pickup/delivery\n2. 💳 Card Payment - Credit/Debit card\n3. 📱 UPI Payment - PhonePe, GPay, Paytm\n4. 💰 Digital Wallet - Paytm, Amazon Pay\n\nPlease choose your payment method by saying something like:\n\"I'll pay with cash\" or \"UPI payment\" or \"Card payment\"\n"
       , data_checkout_summary := some checkout_summary }, cart)
    | some pm =>
      let valid_methods := get_available_payment_methods.map (fun p => p.id)
      if !valid_methods.contains pm then
        ({ checkout_stage := "summary"
         , message := "Invalid payment method. Please choose from: " ++
             String.intercalate ", " valid_methods }, cart)
      else
        let saved := save_chat_order_to_database cart pm servicesPresent beh
          (some "Conversational Order via Chat")
        if saved.1.success then
          ({ checkout_stage := "completed"
           , message := "\n🎉 **ORDER CONFIRMED!**\n\n**Order Number:** " ++
               (saved.1.order_number.getD "") ++ "\n**Payment Method:** " ++
               ((get_available_payment_methods.find? (fun p => p.id = pm)).map
                 (fun p => p.name)).getD pm ++
               "\n**Total Amount:** ₹" ++ money2 checkout_summary.total_amount ++
               "\n\nYour order has been successfully placed! \n\nFor cash payment: Have the exact amount ready at pickup/delivery\nFor card/UPI: You'll receive payment instructions shortly\nFor digital wallet: Check your app for payment request\n\nThank you for your order! ☕️\n"
           , data_order := some saved.1 }, saved.2)
        else
          ({ checkout_stage := "summary"
           , message := "Sorry, there was an error processing your order: " ++ saved.1.message },
           saved.2)

/-! ## Context-policy functions and context builders (`llm_utils.py`) -/

def product_context_keywords : List String :=
  ["this", "that", "it", "the one", "same", "different", "another",
   "previous", "last", "earlier", "mentioned", "discussed",
   "compare", "vs", "versus", "difference between",
   "similar", "like that", "alternative"]

/-- Verbatim, including the capital `I` of `"what I bought"` (compared
against a lowered string in the source, so that entry can never match). -/
def reference_keywords : List String :=
  ["this product", "that coffee", "the beans", "same order",
   "my order", "my coffee", "my purchase", "what I bought"]

def policy_confirmation_keywords : List String :=
  ["yes", "yeah", "yep", "sure", "okay", "ok", "add it", "add that",
   "take it", "i'll take that", "yes please", "sounds good", "perfect"]

def should_resolve_product_context (query intent : String) : Bool :=
  let query_lower := pyLower query
  if intent = "order_taking" then true
  else if anyKeywordIn policy_confirmation_keywords query_lower then true
  else if intent = "sales" &&
    anyKeywordIn (product_context_keywords ++ reference_keywords) query_lower then true
  else if intent = "refund" && anyKeywordIn reference_keywords query_lower then true
  else if anyKeywordIn product_context_keywords query_lower then true
  else false

def history_context_keywords : List String :=
  ["continue", "also", "and", "what about", "how about",
   "yes", "no", "okay", "sure", "thanks", "thank you",
   "previous", "earlier", "before", "last time",
   "again", "still", "more", "else", "other"]

def should_use_chat_history (query intent : String) : Bool :=
  let query_lower := pyLower query
  if intent = "order_taking" then true
  else if anyKeywordIn policy_confirmation_keywords query_lower then true
  else if wordCount query ≤ 3 then true
  else if anyKeywordIn history_context_keywords query_lower then true
  else if intent = "refund" then true
  else false

/-- One turn of the chat history (`{"role": ..., "content": ...}`). -/
structure Msg where
  role : String
  content : String
deriving Repr, DecidableEq

/-- Python `l[-n:]`. -/
def lastN {α : Type} (n : Nat) (l : List α) : List α := l.drop (l.length - n)

/-- Source: `get_chat_history_context(chat_history, limit=5)`. -/
def get_chat_history_context (chat_history : List Msg) : String :=
  if chat_history.isEmpty then "" else
  let recent := lastN 5 chat_history
  String.intercalate "\n" ("Recent Conversation History:" ::
    recent.filterMap (fun m =>
      if m.role = "user" then some ("Customer: " ++ m.content)
      else if m.role = "assistant" then some ("Assistant: " ++ m.content)
      else none))

/-- Source: `Product ID\s*(\d+)` tried at the head of the input (the tail of the
`ADD TO CART.*Product ID\s*(\d+)` pattern). -/
def cartRefTail (cs : List Char) : Option (List Char × List Char) :=
  match expectLit (strL "Product ID") cs with
  | none => none
  | some r => readDigits (skipWs r)

/-- The greedy `.*` of `ADD TO CART.*Product ID\s*(\d+)`: `.` does not match
a newline, so the `Product ID` literal must start on the current line, and
greediness selects the match at the largest offset. -/
def cartLineScan : List Char → Option (List Char × List Char)
  | [] => none
  | c :: t =>
    if c = '\n' then none
    else
      match cartLineScan t with
      | some r => some r
      | none => cartRefTail (c :: t)

/-- Source: `ADD TO CART.*Product ID\s*(\d+)` at the head of the input
(case-sensitive: this `findall` passes no flags). -/
def matchCartRefAt (cs : List Char) : Option (List Char × List Char) :=
  match expectLit (strL "ADD TO CART") cs with
  | none => none
  | some r => cartLineScan r

def rpr_confirmation_words : List String :=
  ["yes", "yeah", "yep", "sure", "okay", "ok", "add it", "add that", "take it"]

def rpr_reference_words : List String :=
  ["it", "that", "this", "the item", "the product"]

/-- The reverse scan of the last five turns in `resolve_product_reference`:
return the formatted block of the most recent assistant turn with a product
or cart-instruction mention. -/
def rprScan : List Msg → String
  | [] => ""
  | m :: rest =>
    if m.role = "assistant" then
      let prods := findCitations m.content
      let carts := findAll matchCartRefAt m.content.data
      if !prods.isEmpty || !carts.isEmpty then
        String.intercalate "\n" ("Referenced Product from Previous Message:" ::
          (prods.map (fun c =>
            "- " ++ String.mk (pyStripL c.name) ++ " (ID: " ++ String.mk c.pid ++
              ") - ₹" ++ String.mk c.price) ++
           carts.map (fun d =>
            "- Previous cart instruction for Product ID: " ++ String.mk d)))
      else rprScan rest
    else rprScan rest

def resolve_product_reference (query : String) (chat_history : List Msg) : String :=
  if chat_history.isEmpty then "" else
  let query_lower := pyLower query
  let is_confirmation := anyKeywordIn rpr_confirmation_words query_lower
  let has_reference := anyKeywordIn rpr_reference_words query_lower
  if is_confirmation || has_reference then rprScan (lastN 5 chat_history).reverse
  else ""

def format_rag_context (retrieved_docs : List String) (chat_context product_context : String) : String :=
  String.intercalate "\n"
    ((if !retrieved_docs.isEmpty then "Retrieved Information:" :: retrieved_docs else []) ++
     (if chat_context ≠ "" then ["\nPrevious Conversation:", chat_context] else []) ++
     (if product_context ≠ "" then ["\nProduct Information:", product_context] else []))

def base_safety : String :=
  "CRITICAL SAFETY INSTRUCTIONS:\n- Never provide harmful, illegal, or inappropriate content\n- Stay focused on coffee shop assistance\n- Be helpful, professional, and friendly\n- If asked about unrelated topics, politely redirect to coffee shop services"

/-- Source: `get_specialized_prompt(intent, context, query)`.  The branch structure,
role framing, and the embedding of the safety preamble, context and query
follow the source; the long instructional prose inside each template is
condensed to its role line (no claim inspects prompt prose). -/
def get_specialized_prompt (intent context query : String) : String :=
  if intent = "order_taking" then
    base_safety ++
    "\n\nYou are BrewMaster's Order Taking Specialist - an expert at helping customers place orders conversationally.\n\nContext with Available Products:\n" ++
    context ++ "\n\nCustomer Order Request: " ++ query ++ "\n\nOrder Taking Response:"
  else if intent = "cart_management" then
    base_safety ++
    "\n\nYou are BrewMaster's Cart Management Specialist - helping customers manage their orders.\n\nContext:\n" ++
    context ++ "\n\nCustomer Cart Request: " ++ query ++ "\n\nCart Management Response:"
  else if intent = "order_status" then
    base_safety ++
    "\n\nYou are BrewMaster's Order Status Specialist - providing order tracking and status updates.\n\nContext:\n" ++
    context ++ "\n\nCustomer Status Request: " ++ query ++ "\n\nOrder Status Response:"
  else if intent = "sales" then
    base_safety ++
    "\n\nYou are BrewMaster's Product Specialist - an expert coffee consultant helping customers discover perfect products.\n\nContext:\n" ++
    context ++ "\n\nCustomer Question: " ++ query ++ "\n\nSales Response:"
  else if intent = "refund" then
    base_safety ++
    "\n\nYou are a customer service specialist handling refunds and returns.\n\nContext:\n" ++
    context ++ "\n\nCustomer Question: " ++ query ++ "\n\nCustomer Service Response:"
  else if intent = "support" then
    base_safety ++
    "\n\nYou are a customer support specialist providing general assistance.\n\nContext:\n" ++
    context ++ "\n\nCustomer Question: " ++ query ++ "\n\nSupport Response:"
  else
    base_safety ++
    "\n\nYou are BrewMaster's General Assistant - providing friendly, helpful responses about our coffee shop.\n\nContext:\n" ++
    context ++ "\n\nCustomer Question: " ++ query ++ "\n\nGeneral Response:"

def agent_names : List (String × String) :=
  [("order_taking", "Order Taking Specialist"),
   ("confirmation", "Product Specialist"),
   ("cart_management", "Cart Management Specialist"),
   ("order_status", "Order Status Specialist"),
   ("checkout", "Checkout Specialist"),
   ("payment_method", "Payment Specialist"),
   ("sales", "Product Specialist"),
   ("refund", "Customer Service Agent"),
   ("support", "Support Agent"),
   ("general", "BrewMaster Assistant")]

def get_agent_name (intent : String) : String :=
  match agent_names.find? (fun p => p.1 = intent) with
  | some p => p.2
  | none => "BrewMaster Assistant"

/-! ## `rag.RAGSystem.generate_response`

The external collaborators are explicit parameters: `retrieve` is the vector
retriever, `llm` the generation backend, `cart`/`cartAfterAdd` the cart-store
snapshots seen by the session before and after step-11 adds, and the outcome
parameters the cart/order backends' behaviour.  A `GenTrace` records, for the
executed path, whether the generation backend was invoked, whether
`is_safe_query` was consulted (the source's `generate_response` never calls
it, although `rag.py` imports it), which intent value the context-policy
functions received, and which direct-action branch returned early.
Step 12 (structured product formatting) only fills the `products`/`metadata`
display fields, which no claim inspects; they are omitted from `GenResult`. -/

structure RagEnv where
  retrieve : String → List String
  llm : String → String
  cartPresent : Bool
  cart : CartSnapshot
  cartAfterAdd : CartSnapshot
  addBehaviour : Nat → AddOutcome
  orderBehaviour : OrderOutcome

structure GenTrace where
  genCalled : Bool
  safetyChecked : Bool
  policyIntent : Option String
  earlyReturn : Option String
deriving Repr, DecidableEq

structure GenResult where
  response : String
  intent : String
  agent : String
  sources : List String
  context : String
  chat_history_used : Bool
  product_context_used : Bool
  order_has_action : Bool
  order_cart_result : Option CartActionResult
deriving Repr, DecidableEq

def generate_response (env : RagEnv) (query : String) (chat_history : List Msg)
    (sessionId : Option String) : GenResult × GenTrace :=
  let intent0 := classify_intent query
  if intent0 = "cart_management" ∧ env.cartPresent ∧ sessionId.isSome then
    let cart_summary := get_cart_summary env.cart
    let response_text :=
      if cart_summary.empty then cart_summary.message
      else cart_summary.formatted_summary ++
        "\n\n🛒 **Cart Actions Available:**\n- Say 'remove [item]' to delete items\n- Say 'checkout' or 'place order' to proceed\n- Say 'add more' to continue shopping"
    ({ response := response_text, intent := intent0, agent := get_agent_name intent0
     , sources := [], context := "", chat_history_used := false
     , product_context_used := false, order_has_action := true
     , order_cart_result := none },
     { genCalled := false, safetyChecked := false, policyIntent := none
     , earlyReturn := some "cart_management" })
  else if intent0 = "checkout" ∧ env.cartPresent ∧ sessionId.isSome then
    let checkout_result := (process_checkout_request none env.cart true env.orderBehaviour).1
    ({ response := checkout_result.message, intent := intent0
     , agent := get_agent_name intent0, sources := [], context := ""
     , chat_history_used := false, product_context_used := false
     , order_has_action := false, order_cart_result := none },
     { genCalled := false, safetyChecked := false, policyIntent := none
     , earlyReturn := some "checkout" })
  else
    let intent1 := if intent0 = "confirmation" ∧ sessionId.isSome then "sales" else intent0
    if intent1 = "payment_method" ∧ env.cartPresent ∧ sessionId.isSome then
      let payment_method := extract_payment_method query
      let checkout_result :=
        (process_checkout_request payment_method env.cart true env.orderBehaviour).1
      ({ response := checkout_result.message, intent := intent1
       , agent := get_agent_name intent1, sources := [], context := ""
       , chat_history_used := false, product_context_used := false
       , order_has_action := false, order_cart_result := none },
       { genCalled := false, safetyChecked := false, policyIntent := none
       , earlyReturn := some "payment_method" })
    else
      let use_chat_history := should_use_chat_history query intent1
      let use_product_resolution := should_resolve_product_context query intent1
      let retrieved_docs := env.retrieve query
      let chat_context := if use_chat_history then get_chat_history_context chat_history else ""
      let product_context :=
        if use_product_resolution then resolve_product_reference query chat_history else ""
      let formatted_context := format_rag_context retrieved_docs chat_context product_context
      let specialized_prompt := get_specialized_prompt intent1 formatted_context query
      let response0 := env.llm specialized_prompt
      let step11 :=
        if (intent1 = "order_taking" ∨ intent1 = "sales") ∧ sessionId.isSome ∧ env.cartPresent then
          let order_actions := extract_order_intent_from_response response0
          if order_actions.has_order_action then
            let cart_result := process_cart_action order_actions true env.addBehaviour
            let resp :=
              if cart_result.success then
                let updated_cart := get_cart_summary env.cartAfterAdd
                "✅ **" ++ cart_result.message ++ "**" ++
                (if !updated_cart.empty then "\n\n" ++ updated_cart.formatted_summary else "") ++
                "\n\n🛒 **What's next?**\n- Say 'checkout' to place your order\n- Ask for more products to continue shopping\n- Say 'remove [item]' to modify your cart"
              else if order_actions.action_type = some "suggest_add_to_cart" then
                response0 ++
                  "\n\n🛒 Would you like me to add this to your cart? Just say 'yes' or 'add it'!"
              else response0
            (resp, true, some cart_result)
          else (response0, false, (none : Option CartActionResult))
        else (response0, false, (none : Option CartActionResult))
      ({ response := step11.1, intent := intent1, agent := get_agent_name intent1
       , sources := retrieved_docs, context := formatted_context
       , chat_history_used := use_chat_history
       , product_context_used := use_product_resolution
       , order_has_action := step11.2.1
       , order_cart_result := step11.2.2 },
       { genCalled := true, safetyChecked := false, policyIntent := some intent1
       , earlyReturn := none })

/-! ## `OrderProcessor` object state (for the `active_orders` invariant)

`OrderProcessor.__init__` sets `self.active_orders = {}`; the class's methods
are otherwise pure in the object state (they act only on the external
cart/order store).  `ProcessorOp` enumerates the public operations; each is
wired to its model function above.  The effect of `add_to_cart` on the store
snapshot is computed by the external database, so `cartAction` carries the
store's resulting snapshot as an oracle. -/

structure ChatOrderRec where
  session_id : String
  items : List OrderItemRow
  total_amount : ℚ
  status : String := "building"
deriving Repr, DecidableEq

structure OrderProcessorState where
  active_orders : List (String × ChatOrderRec)
deriving Repr, DecidableEq

/-- Source: `__init__`: `self.active_orders = {}`. -/
def initProcessor : OrderProcessorState := { active_orders := [] }

inductive ProcessorOp
  | extractIntent (response : String)
  | cartAction (action : OrderIntentResult) (present : Bool) (b : Nat → AddOutcome)
      (cartAfter : CartSnapshot)
  | cartSummary
  | checkoutSummary
  | paymentMethods
  | saveOrder (pm : String) (present : Bool) (beh : OrderOutcome) (notes : Option String)
  | checkout (pm : Option String) (present : Bool) (beh : OrderOutcome)

def applyOp (s : OrderProcessorState × CartSnapshot) (op : ProcessorOp) :
    OrderProcessorState × CartSnapshot :=
  match op with
  | .extractIntent r =>
    let _ := extract_order_intent_from_response r
    s
  | .cartAction a p b cartAfter =>
    let res := process_cart_action a p b
    (s.1, if res.cart_updated then cartAfter else s.2)
  | .cartSummary =>
    let _ := get_cart_summary s.2
    s
  | .checkoutSummary =>
    let _ := create_checkout_summary s.2
    s
  | .paymentMethods =>
    let _ := get_available_payment_methods
    s
  | .saveOrder pm present beh notes =>
    (s.1, (save_chat_order_to_database s.2 pm present beh notes).2)
  | .checkout pm present beh =>
    (s.1, (process_checkout_request pm s.2 present beh).2)

def runOps (ops : List ProcessorOp) (cart0 : CartSnapshot) :
    OrderProcessorState × CartSnapshot :=
  ops.foldl applyOp (initProcessor, cart0)

/-! ## Statement-side input families

Constructors of well-formed directive texts quantified over by the
`ActionExtractor` theorems, with the wellformedness predicates of their
parameter slots.  They build the input strings nested to the right so the
scanners consume the concrete skeleton definitionally. -/

/-- A nonempty run of ASCII digits (a `(\d+)` capture). -/
def digitRun (ds : List Char) : Bool := !ds.isEmpty && ds.all isDigitCh

/-- A size text as the claim's `<text>` slot: nonempty, comma-free (the
capture group is `[^,]+`), not starting with whitespace (leading whitespace
is absorbed by the preceding `\s*`). -/
def sizeText (sz : List Char) : Bool :=
  match sz with
  | [] => false
  | c :: _ => !isPySpace c && sz.all (fun x => x ≠ ',')

def emojiDirective (pid sz qty : List Char) : String :=
  String.mk (strL "🛒 **ADD TO CART**:" ++ (strL " Product ID " ++ (pid ++
    (strL ", Size: " ++ (sz ++ (strL ", Quantity: " ++ qty))))))

def emojiDirectiveSizeOnly (pid sz : List Char) : String :=
  String.mk (strL "🛒 **ADD TO CART**:" ++ (strL " Product ID " ++ (pid ++
    (strL ", Size: " ++ (sz ++ [])))))

def emojiDirectiveQtyOnly (pid qty : List Char) : String :=
  String.mk (strL "🛒 **ADD TO CART**:" ++ (strL " Product ID " ++ (pid ++
    (strL ", Quantity: " ++ qty))))

def emojiDirectiveBare (pid : List Char) : String :=
  String.mk (strL "🛒 **ADD TO CART**:" ++ (strL " Product ID " ++ (pid ++ [])))

def plainDirective (pid sz qty : List Char) : String :=
  String.mk (strL "ADD TO CART:" ++ (strL " Product ID " ++ (pid ++
    (strL ", Size: " ++ (sz ++ (strL ", Quantity: " ++ qty))))))

/-- A one-line concrete cart used by several witnesses. -/
def sampleCart : CartSnapshot :=
  { items := [{ product_id := 3, quantity := 1, unit_price := 50, total_price := 50 }]
  , total_items := 1, total_amount := 50 }

/-- The per-position record of successful adds made by the
`process_cart_action` loop over `items` when call `j + position` has
behaviour `b (j + position)` (specification mirror of the loop's effect). -/
def okAdds (b : Nat → AddOutcome) : List OrderItemData → Nat → List OrderItemData
  | [], _ => []
  | it :: rest, j => (if b j = AddOutcome.ok then [addedRec it] else []) ++ okAdds b rest (j + 1)

end CoffeeAI

namespace CoffeeAI

/-! ## Helper lemmas -/

theorem isPrefixOf_self (l : List Char) : l.isPrefixOf l = true := by
  induction l with
  | nil => rfl
  | cons c t ih => simp [List.isPrefixOf, ih]

theorem containsL_self (l : List Char) : containsL l l = true := by
  cases l with
  | nil => rfl
  | cons c t => simp [containsL, isPrefixOf_self]

theorem containsSub_self (s : String) : containsSub s s = true := containsL_self s.data

theorem anyKeywordIn_of_mem {kws : List String} {lowered kw : String}
    (hmem : kw ∈ kws) (h : containsSub lowered kw = true) :
    anyKeywordIn kws lowered = true :=
  List.any_eq_true.2 ⟨kw, hmem, h⟩

/-! ## C4: order_taking priority -/

/-- C4: for every query whose lowercased text contains at least one
order_taking keyword, `classify_intent` returns `order_taking`, whatever
other keywords the query contains (the first-match-wins priority holds). -/
theorem claim_C4 (q kw : String) (hmem : kw ∈ order_taking_keywords)
    (h : containsSub (pyLower q) kw = true) :
    classify_intent q = "order_taking" := by
  unfold classify_intent
  simp [anyKeywordIn_of_mem hmem h]

theorem claim_C4_witness :
    ("i want" ∈ order_taking_keywords ∧
      containsSub (pyLower "What is the price of coffee? I want the menu") "i want" = true) ∧
    classify_intent "What is the price of coffee? I want the menu" = "order_taking" :=
  ⟨⟨by decide, by decide⟩,
   claim_C4 "What is the price of coffee? I want the menu" "i want" (by decide) (by decide)⟩

/-! ## C5: two-token confirmation guard -/

/-- C5: a query of at most two whitespace tokens that is exactly a
confirmation word (and matches no order_taking keyword) classifies as
`confirmation`; a query of three or more tokens never classifies as
`confirmation`. -/
theorem claim_C5 :
    (∀ (q kw : String), kw ∈ confirmation_keywords → pyLower q = kw →
      wordCount q ≤ 2 →
      anyKeywordIn order_taking_keywords (pyLower q) = false →
      classify_intent q = "confirmation") ∧
    (∀ q : String, 3 ≤ wordCount q → classify_intent q ≠ "confirmation") := by
  constructor
  · intro q kw hmem hlq hwc hord
    have hconf : anyKeywordIn confirmation_keywords (pyLower q) = true :=
      anyKeywordIn_of_mem hmem (by rw [hlq]; exact containsSub_self kw)
    unfold classify_intent
    simp [hord, hconf, hwc]
  · intro q h3
    have hw : decide (wordCount q ≤ 2) = false := decide_eq_false (by omega)
    unfold classify_intent
    simp only [hw, Bool.and_false]
    split_ifs <;> first | contradiction | decide

theorem claim_C5_witness :
    classify_intent "yes" = "confirmation" ∧
    classify_intent "would that be okay" ≠ "confirmation" :=
  ⟨claim_C5.1 "yes" "yes" (by decide) (by decide) (by decide) (by decide),
   claim_C5.2 "would that be okay" (by decide)⟩

/-! ## C9: flat 18% checkout tax -/

/-- C9: for every non-empty cart with positive subtotal `s`,
`create_checkout_summary` computes `tax_amount = 0.18 * s` and
`total_amount = s + 0.18 * s`; in particular subtotal 100 gives tax 18 and
total 118. -/
theorem claim_C9 :
    (∀ cart : CartSnapshot, cart.items.isEmpty = false → 0 < cart.total_amount →
      (create_checkout_summary cart).ready_for_checkout = true ∧
      (create_checkout_summary cart).subtotal = cart.total_amount ∧
      (create_checkout_summary cart).tax_amount = (18 / 100 : ℚ) * cart.total_amount ∧
      (create_checkout_summary cart).total_amount =
        cart.total_amount + (18 / 100 : ℚ) * cart.total_amount) ∧
    (∀ cart : CartSnapshot, cart.items.isEmpty = false → cart.total_amount = 100 →
      (create_checkout_summary cart).tax_amount = 18 ∧
      (create_checkout_summary cart).total_amount = 118) := by
  have key : ∀ cart : CartSnapshot, cart.items.isEmpty = false →
      (create_checkout_summary cart).ready_for_checkout = true ∧
      (create_checkout_summary cart).subtotal = cart.total_amount ∧
      (create_checkout_summary cart).tax_amount = cart.total_amount * tax_rate ∧
      (create_checkout_summary cart).total_amount =
        cart.total_amount + cart.total_amount * tax_rate := by
    intro cart hne
    unfold create_checkout_summary get_cart_summary
    simp [hne]
  constructor
  · intro cart hne _
    obtain ⟨h1, h2, h3, h4⟩ := key cart hne
    refine ⟨h1, h2, ?_, ?_⟩
    · rw [h3]; unfold tax_rate; ring
    · rw [h4]; unfold tax_rate; ring
  · intro cart hne h100
    obtain ⟨_, _, h3, h4⟩ := key cart hne
    constructor
    · rw [h3, h100]; unfold tax_rate; norm_num
    · rw [h4, h100]; unfold tax_rate; norm_num

theorem claim_C9_witness :
    ((({ items := [{ product_id := 1, quantity := 2, unit_price := 50,
                     total_price := 100 }], total_items := 2, total_amount := 100 } :
        CartSnapshot).items.isEmpty = false) ∧
      (0 : ℚ) < 100) ∧
    (create_checkout_summary
      { items := [{ product_id := 1, quantity := 2, unit_price := 50,
                    total_price := 100 }], total_items := 2, total_amount := 100 }).tax_amount
        = 18 ∧
    (create_checkout_summary
      { items := [{ product_id := 1, quantity := 2, unit_price := 50,
                    total_price := 100 }], total_items := 2, total_amount := 100 }).total_amount
        = 118 :=
  ⟨⟨by decide, by norm_num⟩,
   claim_C9.2
     { items := [{ product_id := 1, quantity := 2, unit_price := 50, total_price := 100 }]
     , total_items := 2, total_amount := 100 } (by decide) (by norm_num)⟩

/-! ## C10: `active_orders` stays empty -/

theorem applyOp_preserves_state (s : OrderProcessorState × CartSnapshot) (op : ProcessorOp) :
    (applyOp s op).1 = s.1 := by
  cases op <;> rfl

/-- C10: across every sequence of `OrderProcessor` operations from a freshly
constructed processor, the session-keyed `active_orders` registry remains the
empty mapping set by `__init__` — no operation adds, updates or removes an
entry. -/
theorem claim_C10 (ops : List ProcessorOp) (cart0 : CartSnapshot) :
    (runOps ops cart0).1.active_orders = [] := by
  have h : ∀ (l : List ProcessorOp) (s : OrderProcessorState × CartSnapshot),
      (l.foldl applyOp s).1 = s.1 := by
    intro l
    induction l with
    | nil => intro s; rfl
    | cons op t ih =>
      intro s
      rw [List.foldl_cons, ih, applyOp_preserves_state]
  have := h ops (initProcessor, cart0)
  unfold runOps
  rw [this]
  rfl

/-! ## C3: conservative fallback tier of the extractor -/

/-- C3: when a generated text has no `ADD TO CART` directive match and none
of the fixed order-context or confirmation phrases, the extractor reports no
action even if a bold product citation is present; when a citation and a
corroborating phrase are both present, it returns `suggest_add_to_cart` with
one quantity-1 item per citation.  (The `floatTextOk` hypothesis restricts to
citations whose price text Python's `float()` accepts, since the source would
raise on others.) -/
theorem claim_C3 :
    (∀ r : String,
      findAll matchAddToCartEmojiAt r.data = [] →
      findAll matchAddToCartAltAt r.data = [] →
      findCitations r ≠ [] →
      anyKeywordIn fallback_order_keywords (pyLower r) = false →
      anyKeywordIn fallback_confirmation_keywords (pyLower r) = false →
      extract_order_intent_from_response r =
        { has_order_action := false, action_type := none, items := [], instructions := [] }) ∧
    (∀ r : String,
      findAll matchAddToCartEmojiAt r.data = [] →
      findAll matchAddToCartAltAt r.data = [] →
      findCitations r ≠ [] →
      (anyKeywordIn fallback_order_keywords (pyLower r) = true ∨
       anyKeywordIn fallback_confirmation_keywords (pyLower r) = true) →
      (∀ c ∈ findCitations r, floatTextOk c.price = true) →
      extract_order_intent_from_response r =
        { has_order_action := true, action_type := some "suggest_add_to_cart"
        , items := (findCitations r).map citationItem, instructions := [] }) := by
  constructor
  · intro r h1 h2 _ h4 h5
    unfold extract_order_intent_from_response findDirectives
    simp [h1, h2, h4, h5]
  · intro r h1 h2 h3 hctx _
    unfold extract_order_intent_from_response findDirectives
    rcases hctx with hc | hc <;> simp [h1, h2, h3, hc]

theorem claim_C3_witness :
    (findAll matchAddToCartEmojiAt (strL "We stock **Civet Cat** (ID: 8) - ₹3757.50 today.") = [] ∧
     findCitations "We stock **Civet Cat** (ID: 8) - ₹3757.50 today." ≠ [] ∧
     extract_order_intent_from_response "We stock **Civet Cat** (ID: 8) - ₹3757.50 today." =
       { has_order_action := false, action_type := none, items := [], instructions := [] }) ∧
    extract_order_intent_from_response "Great choice! Adding **Civet Cat** (ID: 8) - ₹3,757.50" =
      { has_order_action := true, action_type := some "suggest_add_to_cart"
      , items := (findCitations "Great choice! Adding **Civet Cat** (ID: 8) - ₹3,757.50").map citationItem
      , instructions := [] } :=
  ⟨⟨by decide, by decide,
    claim_C3.1 "We stock **Civet Cat** (ID: 8) - ₹3757.50 today."
      (by decide) (by decide) (by decide) (by decide) (by decide)⟩,
   claim_C3.2 "Great choice! Adding **Civet Cat** (ID: 8) - ₹3,757.50"
     (by decide) (by decide) (by decide) (Or.inl (by decide)) (by decide)⟩

/-! ## C6: cart cleared iff order creation succeeded -/

theorem create_checkout_summary_ready (cart : CartSnapshot)
    (hne : cart.items.isEmpty = false) :
    (create_checkout_summary cart).ready_for_checkout = true := by
  unfold create_checkout_summary get_cart_summary
  simp [hne]

theorem cart_ne_cleared (cart : CartSnapshot) (hne : cart.items.isEmpty = false) :
    cart ≠ clearedCart := by
  intro he
  rw [he] at hne
  simp [clearedCart] at hne

/-- C6: for a checkout attempt on a non-empty cart with a valid payment
method, the cart is cleared iff `create_order` confirmed the order; on any
failure (falsy return or raise) the cart is unchanged and the result reports
`success = false` with no order id (and the checkout result carries no order
record). -/
theorem claim_C6 (cart : CartSnapshot) (pm : String) (beh : OrderOutcome)
    (hpm : pm ∈ get_available_payment_methods.map (fun p => p.id))
    (hne : cart.items.isEmpty = false) :
    ((process_checkout_request (some pm) cart true beh).2 = clearedCart ↔
      ∃ r, beh = OrderOutcome.created r) ∧
    ((∀ r, beh ≠ OrderOutcome.created r) →
      (process_checkout_request (some pm) cart true beh).2 = cart ∧
      (process_checkout_request (some pm) cart true beh).1.data_order = none ∧
      (save_chat_order_to_database cart pm true beh
        (some "Conversational Order via Chat")).1.success = false ∧
      (save_chat_order_to_database cart pm true beh
        (some "Conversational Order via Chat")).1.order_id = none) ∧
    ((∃ r, beh = OrderOutcome.created r) →
      (process_checkout_request (some pm) cart true beh).2 = clearedCart ∧
      (save_chat_order_to_database cart pm true beh
        (some "Conversational Order via Chat")).1.success = true) := by
  have hready := create_checkout_summary_ready cart hne
  have hcc := cart_ne_cleared cart hne
  have hpm2 : pm = "cash" ∨ pm = "card" ∨ pm = "upi" ∨ pm = "digital_wallet" := by
    simpa [get_available_payment_methods] using hpm
  have h2cart : ∀ beh2 : OrderOutcome, (∀ r, beh2 ≠ OrderOutcome.created r) →
      (process_checkout_request (some pm) cart true beh2).2 = cart := by
    intro beh2 hno
    cases beh2 with
    | created r => exact absurd rfl (hno r)
    | rejected =>
      rcases hpm2 with rfl | rfl | rfl | rfl <;>
        simp [process_checkout_request, save_chat_order_to_database, hready, hne,
          get_available_payment_methods]
    | failed m =>
      rcases hpm2 with rfl | rfl | rfl | rfl <;>
        simp [process_checkout_request, save_chat_order_to_database, hready, hne,
          get_available_payment_methods]
  have h2cleared : ∀ r : OrderRec,
      (process_checkout_request (some pm) cart true (OrderOutcome.created r)).2 = clearedCart := by
    intro r
    rcases hpm2 with rfl | rfl | rfl | rfl <;>
      simp [process_checkout_request, save_chat_order_to_database, hready, hne,
        get_available_payment_methods]
  have hdata : ∀ beh2 : OrderOutcome, (∀ r, beh2 ≠ OrderOutcome.created r) →
      (process_checkout_request (some pm) cart true beh2).1.data_order = none := by
    intro beh2 hno
    cases beh2 with
    | created r => exact absurd rfl (hno r)
    | rejected =>
      rcases hpm2 with rfl | rfl | rfl | rfl <;>
        simp [process_checkout_request, save_chat_order_to_database, hready, hne,
          get_available_payment_methods]
    | failed m =>
      rcases hpm2 with rfl | rfl | rfl | rfl <;>
        simp [process_checkout_request, save_chat_order_to_database, hready, hne,
          get_available_payment_methods]
  have hsave_fail : ∀ beh2 : OrderOutcome, (∀ r, beh2 ≠ OrderOutcome.created r) →
      (save_chat_order_to_database cart pm true beh2
        (some "Conversational Order via Chat")).1.success = false ∧
      (save_chat_order_to_database cart pm true beh2
        (some "Conversational Order via Chat")).1.order_id = none := by
    intro beh2 hno
    cases beh2 with
    | created r => exact absurd rfl (hno r)
    | rejected => constructor <;> simp [save_chat_order_to_database, hne]
    | failed m => constructor <;> simp [save_chat_order_to_database, hne]
  have hsave_ok : ∀ r : OrderRec,
      (save_chat_order_to_database cart pm true (OrderOutcome.created r)
        (some "Conversational Order via Chat")).1.success = true := by
    intro r
    simp [save_chat_order_to_database, hne]
  refine ⟨⟨?_, ?_⟩, fun hno => ⟨h2cart beh hno, hdata beh hno,
    (hsave_fail beh hno).1, (hsave_fail beh hno).2⟩, ?_⟩
  · intro hcl
    cases beh with
    | created r => exact ⟨r, rfl⟩
    | rejected =>
      rw [h2cart _ (fun r h => by cases h)] at hcl
      exact absurd hcl hcc
    | failed m =>
      rw [h2cart _ (fun r h => by cases h)] at hcl
      exact absurd hcl hcc
  · rintro ⟨r, rfl⟩
    exact h2cleared r
  · rintro ⟨r, rfl⟩
    exact ⟨h2cleared r, hsave_ok r⟩

theorem claim_C6_witness :
    ("cash" ∈ get_available_payment_methods.map (fun p => p.id) ∧
      sampleCart.items.isEmpty = false) ∧
    ((process_checkout_request (some "cash") sampleCart true
        (OrderOutcome.created { id := 7, order_number := "ORD-7" })).2 = clearedCart ↔
      ∃ r, OrderOutcome.created { id := 7, order_number := "ORD-7" } = OrderOutcome.created r) ∧
    ((process_checkout_request (some "cash") sampleCart true OrderOutcome.rejected).2 =
        sampleCart ∧
      (save_chat_order_to_database sampleCart "cash" true OrderOutcome.rejected
        (some "Conversational Order via Chat")).1.success = false) :=
  ⟨⟨by decide, by decide⟩,
   (claim_C6 sampleCart "cash" (OrderOutcome.created { id := 7, order_number := "ORD-7" })
      (by decide) (by decide)).1,
   ⟨((claim_C6 sampleCart "cash" OrderOutcome.rejected (by decide) (by decide)).2.1
       (fun r h => by cases h)).1,
    ((claim_C6 sampleCart "cash" OrderOutcome.rejected (by decide) (by decide)).2.1
       (fun r h => by cases h)).2.2.1⟩⟩

/-! ## C7: best-effort cart-action processing -/

theorem cartActionLoop_no_fail (b : Nat → AddOutcome) :
    ∀ (items : List OrderItemData) (j : Nat),
      (∀ i, i < items.length → ∀ m, b (j + i) ≠ AddOutcome.failed m) →
      cartActionLoop b items j = (okAdds b items j, none) := by
  intro items
  induction items with
  | nil => intro j _; rfl
  | cons it rest ih =>
    intro j h
    have h0 : ∀ m, b j ≠ AddOutcome.failed m := by
      intro m
      have := h 0 (by simp) m
      simpa using this
    have hshift : ∀ i, i < rest.length → ∀ m, b (j + 1 + i) ≠ AddOutcome.failed m := by
      intro i hi m
      have heq : j + 1 + i = j + (i + 1) := by omega
      rw [heq]
      exact h (i + 1) (by simpa using Nat.succ_lt_succ hi) m
    cases hbj : b j with
    | failed m => exact absurd hbj (h0 m)
    | ok => simp [cartActionLoop, hbj, okAdds, ih (j + 1) hshift]
    | rejected => simp [cartActionLoop, hbj, okAdds, ih (j + 1) hshift]

theorem cartActionLoop_first_fail (b : Nat → AddOutcome) :
    ∀ (items : List OrderItemData) (j k : Nat) (m : String),
      k < items.length →
      b (j + k) = AddOutcome.failed m →
      (∀ i, i < k → ∀ m2, b (j + i) ≠ AddOutcome.failed m2) →
      cartActionLoop b items j = (okAdds b (items.take k) j, some m) := by
  intro items
  induction items with
  | nil => intro j k m hk; exact absurd hk (by simp)
  | cons it rest ih =>
    intro j k m hk hbk hno
    cases k with
    | zero =>
      have hbj : b j = AddOutcome.failed m := by simpa using hbk
      simp [cartActionLoop, hbj, okAdds]
    | succ k2 =>
      have h0 : ∀ m2, b j ≠ AddOutcome.failed m2 := by
        intro m2
        have := hno 0 (Nat.succ_pos k2) m2
        simpa using this
      have hbk2 : b (j + 1 + k2) = AddOutcome.failed m := by
        have heq : j + 1 + k2 = j + (k2 + 1) := by omega
        rw [heq]
        exact hbk
      have hno2 : ∀ i, i < k2 → ∀ m2, b (j + 1 + i) ≠ AddOutcome.failed m2 := by
        intro i hi m2
        have heq : j + 1 + i = j + (i + 1) := by omega
        rw [heq]
        exact hno (i + 1) (by simpa using Nat.succ_lt_succ hi) m2
      have hrec := ih (j + 1) k2 m (by simpa using Nat.lt_of_succ_lt_succ hk) hbk2 hno2
      cases hbj : b j with
      | failed m2 => exact absurd hbj (h0 m2)
      | ok => simp [cartActionLoop, hbj, okAdds, hrec]
      | rejected => simp [cartActionLoop, hbj, okAdds, hrec]

/-- C7 (amended): with the cart backend available, `process_cart_action`
reports `success = true` exactly when at least one item was added **and** no
`add_to_cart` call raised; a raising call is caught (the function returns
normally), produces the user-facing failure message, and leaves the items
added before the exception recorded as added — but `success` stays `false`
even though items were added, which is where the original claim fails. -/
theorem claim_C7_amended :
    (∀ (action : OrderIntentResult) (b : Nat → AddOutcome),
      action.has_order_action = true →
      (∀ i, i < action.items.length → ∀ m, b i ≠ AddOutcome.failed m) →
      ((process_cart_action action true b).success = true ↔
        (process_cart_action action true b).items_added ≠ []) ∧
      (process_cart_action action true b).items_added = okAdds b action.items 0) ∧
    (∀ (action : OrderIntentResult) (b : Nat → AddOutcome) (k : Nat) (m : String),
      action.has_order_action = true →
      k < action.items.length →
      b k = AddOutcome.failed m →
      (∀ i, i < k → ∀ m2, b i ≠ AddOutcome.failed m2) →
      (process_cart_action action true b).success = false ∧
      (process_cart_action action true b).items_added = okAdds b (action.items.take k) 0 ∧
      (process_cart_action action true b).message =
        "Sorry, there was an error adding items to your cart: " ++ m) := by
  constructor
  · intro action b hact hnof
    have hloop := cartActionLoop_no_fail b action.items 0
      (by intro i hi m; simpa using hnof i hi m)
    unfold process_cart_action
    by_cases hok : okAdds b action.items 0 = [] <;>
      simp [hact, hloop, hok]
  · intro action b k m hact hk hbk hno
    have hloop := cartActionLoop_first_fail b action.items 0 k m hk
      (by simpa using hbk) (by intro i hi m2; simpa using hno i hi m2)
    unfold process_cart_action
    simp [hact, hloop]

/-- C7 counterexample: on a two-directive extracted action whose second
`add_to_cart` call raises, one item was added (`items_added ≠ []`) yet
`success = false`, refuting "success = true exactly when at least one item
was added". -/
theorem claim_C7_counterexample :
    (extract_order_intent_from_response
      "🛒 **ADD TO CART**: Product ID 3, Quantity: 1 and 🛒 **ADD TO CART**: Product ID 4, Quantity: 2").items.length = 2 ∧
    (process_cart_action
      (extract_order_intent_from_response
        "🛒 **ADD TO CART**: Product ID 3, Quantity: 1 and 🛒 **ADD TO CART**: Product ID 4, Quantity: 2")
      true (fun k => if k = 0 then AddOutcome.ok else AddOutcome.failed "db down")).items_added ≠ [] ∧
    (process_cart_action
      (extract_order_intent_from_response
        "🛒 **ADD TO CART**: Product ID 3, Quantity: 1 and 🛒 **ADD TO CART**: Product ID 4, Quantity: 2")
      true (fun k => if k = 0 then AddOutcome.ok else AddOutcome.failed "db down")).success = false := by
  decide

theorem claim_C7_witness :
    (((process_cart_action
        (extract_order_intent_from_response "🛒 **ADD TO CART**: Product ID 3, Quantity: 1")
        true (fun _ => AddOutcome.ok)).success = true ↔
      (process_cart_action
        (extract_order_intent_from_response "🛒 **ADD TO CART**: Product ID 3, Quantity: 1")
        true (fun _ => AddOutcome.ok)).items_added ≠ []) ∧
     (process_cart_action
        (extract_order_intent_from_response "🛒 **ADD TO CART**: Product ID 3, Quantity: 1")
        true (fun _ => AddOutcome.ok)).items_added =
       okAdds (fun _ => AddOutcome.ok)
         (extract_order_intent_from_response "🛒 **ADD TO CART**: Product ID 3, Quantity: 1").items 0) ∧
    ((process_cart_action
        (extract_order_intent_from_response
          "🛒 **ADD TO CART**: Product ID 3, Quantity: 1 and 🛒 **ADD TO CART**: Product ID 4, Quantity: 2")
        true (fun k => if k = 0 then AddOutcome.ok else AddOutcome.failed "oops")).success = false ∧
     (process_cart_action
        (extract_order_intent_from_response
          "🛒 **ADD TO CART**: Product ID 3, Quantity: 1 and 🛒 **ADD TO CART**: Product ID 4, Quantity: 2")
        true (fun k => if k = 0 then AddOutcome.ok else AddOutcome.failed "oops")).message =
       "Sorry, there was an error adding items to your cart: " ++ "oops") :=
  ⟨claim_C7_amended.1
     (extract_order_intent_from_response "🛒 **ADD TO CART**: Product ID 3, Quantity: 1")
     (fun _ => AddOutcome.ok) (by decide)
     (fun _ _ m h => AddOutcome.noConfusion h),
   ⟨(claim_C7_amended.2
      (extract_order_intent_from_response
        "🛒 **ADD TO CART**: Product ID 3, Quantity: 1 and 🛒 **ADD TO CART**: Product ID 4, Quantity: 2")
      (fun k => if k = 0 then AddOutcome.ok else AddOutcome.failed "oops") 1 "oops"
      (by decide) (by decide) (by decide)
      (fun i hi m2 h => by
        have hz : i = 0 := Nat.lt_one_iff.mp hi
        subst hz
        exact AddOutcome.noConfusion h)).1,
    (claim_C7_amended.2
      (extract_order_intent_from_response
        "🛒 **ADD TO CART**: Product ID 3, Quantity: 1 and 🛒 **ADD TO CART**: Product ID 4, Quantity: 2")
      (fun k => if k = 0 then AddOutcome.ok else AddOutcome.failed "oops") 1 "oops"
      (by decide) (by decide) (by decide)
      (fun i hi m2 h => by
        have hz : i = 0 := Nat.lt_one_iff.mp hi
        subst hz
        exact AddOutcome.noConfusion h)).2.2⟩⟩

/-! ## C8: confirmation→sales remap happens before the policy calls -/

/-- C8 counterexample: for the query `"yes"` (classified `confirmation`)
with a session id, the pipeline passes `"sales"` — not the original
`"confirmation"` — to the context-policy functions, because the remap at
step 2c precedes steps 3–4 in the source. -/
theorem claim_C8_counterexample :
    classify_intent "yes" = "confirmation" ∧
    (generate_response
      { retrieve := fun _ => [], llm := fun _ => "", cartPresent := false
      , cart := clearedCart, cartAfterAdd := clearedCart
      , addBehaviour := fun _ => AddOutcome.ok, orderBehaviour := OrderOutcome.rejected }
      "yes" [] (some "s1")).2.policyIntent = some "sales" ∧
    (generate_response
      { retrieve := fun _ => [], llm := fun _ => "", cartPresent := false
      , cart := clearedCart, cartAfterAdd := clearedCart
      , addBehaviour := fun _ => AddOutcome.ok, orderBehaviour := OrderOutcome.rejected }
      "yes" [] (some "s1")).2.policyIntent ≠ some "confirmation" := by
  decide

/-- C8 (amended): for every query classified `confirmation` and a present
session id, the orchestrator remaps the intent to `sales` **before** the
policy functions run, so `should_use_chat_history` and
`should_resolve_product_context` are evaluated with `"sales"` (not with the
original `"confirmation"`), and the returned intent is `sales`. -/
theorem claim_C8_amended (env : RagEnv) (query : String) (hist : List Msg) (sid : String)
    (hconf : classify_intent query = "confirmation") :
    (generate_response env query hist (some sid)).2.policyIntent = some "sales" ∧
    (generate_response env query hist (some sid)).1.intent = "sales" ∧
    (generate_response env query hist (some sid)).1.chat_history_used =
      should_use_chat_history query "sales" ∧
    (generate_response env query hist (some sid)).1.product_context_used =
      should_resolve_product_context query "sales" := by
  unfold generate_response
  simp [hconf]

theorem claim_C8_witness :
    classify_intent "ok" = "confirmation" ∧
    (generate_response
      { retrieve := fun _ => [], llm := fun _ => "fine", cartPresent := true
      , cart := sampleCart, cartAfterAdd := sampleCart
      , addBehaviour := fun _ => AddOutcome.ok, orderBehaviour := OrderOutcome.rejected }
      "ok" [] (some "sess")).2.policyIntent = some "sales" :=
  ⟨by decide,
   (claim_C8_amended
     { retrieve := fun _ => [], llm := fun _ => "fine", cartPresent := true
     , cart := sampleCart, cartAfterAdd := sampleCart
     , addBehaviour := fun _ => AddOutcome.ok, orderBehaviour := OrderOutcome.rejected }
     "ok" [] "sess" (by decide)).1⟩

/-! ## C1: the safety gate is never consulted by the pipeline -/

/-- C1: `rag.py` imports `is_safe_query` but `generate_response` never calls
it.  On the unsafe query below (`is_safe_query` = false, since it contains
"kill"), the pipeline still invokes the generation backend
(`genCalled = true`) and consults the safety gate on no path
(`safetyChecked = false` records that no call site exists in the source),
contradicting the claimed pre-generation short-circuit. -/
theorem claim_C1_code_divergence :
    is_safe_query "I want to kill some time over coffee" = false ∧
    (generate_response
      { retrieve := fun _ => [], llm := fun _ => "Sure, here are our coffees."
      , cartPresent := false, cart := clearedCart, cartAfterAdd := clearedCart
      , addBehaviour := fun _ => AddOutcome.ok, orderBehaviour := OrderOutcome.rejected }
      "I want to kill some time over coffee" [] none).2.genCalled = true ∧
    (generate_response
      { retrieve := fun _ => [], llm := fun _ => "Sure, here are our coffees."
      , cartPresent := false, cart := clearedCart, cartAfterAdd := clearedCart
      , addBehaviour := fun _ => AddOutcome.ok, orderBehaviour := OrderOutcome.rejected }
      "I want to kill some time over coffee" [] none).2.safetyChecked = false := by
  decide

/-! ## C2: explicit `ADD TO CART` directives — scanner lemmas -/

theorem scanAll_nil {α : Type} (m : List Char → Option (α × List Char)) (n : Nat) :
    scanAll m n [] = [] := by cases n <;> rfl

theorem findAll_single {α : Type} (m : List Char → Option (α × List Char))
    (cs : List Char) (a : α) (h : m cs = some (a, [])) (hne : cs ≠ []) :
    findAll m cs = [a] := by
  unfold findAll
  cases cs with
  | nil => exact absurd rfl hne
  | cons c t =>
    rw [List.length_cons]
    simp [scanAll, h, scanAll_nil]

theorem takeWhile_append_stop {p : Char → Bool} (a b : List Char)
    (ha : ∀ x ∈ a, p x = true) (hb : ∀ c, b.head? = some c → p c = false) :
    (a ++ b).takeWhile p = a := by
  induction a with
  | nil =>
    cases b with
    | nil => rfl
    | cons c t => simp [List.takeWhile_cons, hb c rfl]
  | cons x xs ih =>
    simp [List.takeWhile_cons, ha x (List.mem_cons_self x xs),
      ih (fun y hy => ha y (List.mem_cons_of_mem x hy))]

theorem dropWhile_append_stop {p : Char → Bool} (a b : List Char)
    (ha : ∀ x ∈ a, p x = true) (hb : ∀ c, b.head? = some c → p c = false) :
    (a ++ b).dropWhile p = b := by
  induction a with
  | nil =>
    cases b with
    | nil => rfl
    | cons c t => simp [List.dropWhile_cons, hb c rfl]
  | cons x xs ih =>
    simp [List.dropWhile_cons, ha x (List.mem_cons_self x xs),
      ih (fun y hy => ha y (List.mem_cons_of_mem x hy))]

theorem not_space_of_digit {c : Char} (h : isDigitCh c = true) : isPySpace c = false := by
  unfold isDigitCh at h
  unfold isPySpace
  simp only [decide_eq_true_eq] at h
  apply decide_eq_false
  rintro (rfl | rfl | rfl | rfl | rfl | rfl) <;> exact absurd h (by decide)

theorem ne_glyph_of_digit {c : Char} (h : isDigitCh c = true) : c ≠ '🛒' := by
  intro he
  subst he
  exact absurd h (by decide)

theorem digitRun_ne_nil {ds : List Char} (h : digitRun ds = true) : ds ≠ [] := by
  intro he
  subst he
  simp [digitRun] at h

theorem digitRun_all {ds : List Char} (h : digitRun ds = true) :
    ∀ x ∈ ds, isDigitCh x = true := by
  unfold digitRun at h
  rw [Bool.and_eq_true] at h
  exact fun x hx => List.all_eq_true.mp h.2 x hx

theorem skipWs_of_head_not_space {cs : List Char}
    (h : ∀ c, cs.head? = some c → isPySpace c = false) : skipWs cs = cs := by
  cases cs with
  | nil => rfl
  | cons c t => simp [skipWs, List.dropWhile_cons, h c rfl]

theorem skipWs_digit_append {ds : List Char} (h : digitRun ds = true) (y : List Char) :
    skipWs (ds ++ y) = ds ++ y := by
  apply skipWs_of_head_not_space
  intro c hc
  cases ds with
  | nil => exact absurd rfl (digitRun_ne_nil h)
  | cons d t =>
    rw [show ((d :: t) ++ y).head? = some d from rfl] at hc
    cases hc
    exact not_space_of_digit (digitRun_all h c (List.mem_cons_self c t))

theorem readDigits_append (ds rest : List Char) (h : digitRun ds = true)
    (hr : ∀ c, rest.head? = some c → isDigitCh c = false) :
    readDigits (ds ++ rest) = some (ds, rest) := by
  unfold readDigits
  rw [takeWhile_append_stop ds rest (digitRun_all h) hr,
    dropWhile_append_stop ds rest (digitRun_all h) hr]
  cases hds : ds with
  | nil => exact absurd hds (digitRun_ne_nil h)
  | cons d t => rfl

theorem readDigits_all (ds : List Char) (h : digitRun ds = true) :
    readDigits ds = some (ds, []) := by
  have := readDigits_append ds [] h (by intro c hc; exact Option.noConfusion hc)
  simpa using this

/-! Stage lemmas: the concrete skeleton of each pattern is consumed
definitionally. -/

theorem matchEmoji_head (y : List Char) :
    matchAddToCartEmojiAt (strL "🛒 **ADD TO CART**:" ++ y) = matchDirectiveBody y := rfl

theorem matchAlt_head (y : List Char) :
    matchAddToCartAltAt (strL "ADD TO CART:" ++ y) = matchDirectiveBody y := rfl

theorem matchBody_head (x : List Char) :
    matchDirectiveBody (strL " Product ID " ++ x) = matchDirectiveRest x := rfl

theorem matchDirectiveRest_append (pid y : List Char) (hp : digitRun pid = true)
    (hy : ∀ c, y.head? = some c → isDigitCh c = false) :
    matchDirectiveRest (pid ++ y) =
      some ({ pid := pid, size := (parseSizeGroup y).1
            , qty := (parseQtyGroup (parseSizeGroup y).2).1 },
            (parseQtyGroup (parseSizeGroup y).2).2) := by
  unfold matchDirectiveRest
  rw [skipWs_digit_append hp y, readDigits_append pid y hp hy]

theorem sizeText_head_not_space {sz : List Char} (hs : sizeText sz = true) :
    ∀ c, sz.head? = some c → isPySpace c = false := by
  intro c hc
  cases sz with
  | nil => exact Option.noConfusion hc
  | cons x t =>
    rw [show (x :: t).head? = some x from rfl] at hc
    cases hc
    unfold sizeText at hs
    rw [Bool.and_eq_true] at hs
    simpa using hs.1

theorem sizeText_no_comma {sz : List Char} (hs : sizeText sz = true) :
    ∀ x ∈ sz, (fun y => !decide (y = ',')) x = true := by
  intro x hx
  cases sz with
  | nil => exact absurd hx (List.not_mem_nil x)
  | cons c t =>
    unfold sizeText at hs
    rw [Bool.and_eq_true] at hs
    simpa using List.all_eq_true.mp hs.2 x hx

theorem sizeValue_append (sz rest : List Char) (hs : sizeText sz = true)
    (hr : ∀ c, rest.head? = some c → c = ',') :
    sizeValue (' ' :: (sz ++ rest)) = some (sz, rest) := by
  have hrb : ∀ c, rest.head? = some c → (fun y => !decide (y = ',')) c = false := by
    intro c hc
    have := hr c hc
    subst this
    decide
  cases sz with
  | nil => simp [sizeText] at hs
  | cons c t =>
    have hcs : isPySpace c = false := sizeText_head_not_space hs c rfl
    have hcc : ¬(c = ',') := by
      have := sizeText_no_comma hs c (List.mem_cons_self c t)
      simpa using this
    have htk : List.takeWhile (fun y => !decide (y = ',')) (c :: (t ++ rest)) = c :: t := by
      rw [← List.cons_append]
      exact takeWhile_append_stop (c :: t) rest (sizeText_no_comma hs) hrb
    have hdr : List.dropWhile (fun y => !decide (y = ',')) (c :: (t ++ rest)) = rest := by
      rw [← List.cons_append]
      exact dropWhile_append_stop (c :: t) rest (sizeText_no_comma hs) hrb
    have ht : List.takeWhile isPySpace (' ' :: c :: (t ++ rest)) = [' '] := by
      rw [List.takeWhile_cons_of_pos (by decide),
        List.takeWhile_cons_of_neg (by simp [hcs])]
    have hd : List.dropWhile isPySpace (' ' :: c :: (t ++ rest)) = c :: (t ++ rest) := by
      rw [List.dropWhile_cons_of_pos (by decide),
        List.dropWhile_cons_of_neg (by simp [hcs])]
    unfold sizeValue
    simp only [List.cons_append, ht, hd]
    simp [hcc, htk, hdr]

theorem skipWs_digit {ds : List Char} (h : digitRun ds = true) : skipWs ds = ds := by
  have := skipWs_digit_append h []
  simpa using this

theorem parseSizeGroup_nil : parseSizeGroup [] = (none, []) := rfl

theorem parseQtyGroup_nil : parseQtyGroup [] = (none, []) := rfl

theorem parseSizeGroup_quantity (q : List Char) :
    parseSizeGroup (strL ", Quantity: " ++ q) = (none, strL ", Quantity: " ++ q) := rfl

theorem parseSizeGroup_append (sz rest : List Char) (hs : sizeText sz = true)
    (hr : ∀ c, rest.head? = some c → c = ',') :
    parseSizeGroup (strL ", Size: " ++ (sz ++ rest)) = (some sz, rest) := by
  have hstep : parseSizeGroup (strL ", Size: " ++ (sz ++ rest)) =
      (match sizeValue (' ' :: (sz ++ rest)) with
       | some pr => (some pr.1, pr.2)
       | none => (none, strL ", Size: " ++ (sz ++ rest))) := rfl
  rw [hstep, sizeValue_append sz rest hs hr]

theorem parseQtyGroup_append (qty : List Char) (hq : digitRun qty = true) :
    parseQtyGroup (strL ", Quantity: " ++ qty) = (some qty, []) := by
  have hstep : parseQtyGroup (strL ", Quantity: " ++ qty) =
      (match readDigits (skipWs (' ' :: qty)) with
       | some pr => (some pr.1, pr.2)
       | none => (none, strL ", Quantity: " ++ qty)) := rfl
  have h1 : skipWs (' ' :: qty) = qty := by
    show List.dropWhile isPySpace (' ' :: qty) = qty
    rw [List.dropWhile_cons_of_pos (by decide)]
    exact skipWs_digit hq
  rw [hstep, h1, readDigits_all qty hq]

/-! Per-variant directive match lemmas. -/

theorem matchEmoji_full (pid sz qty : List Char) (hp : digitRun pid = true)
    (hs : sizeText sz = true) (hq : digitRun qty = true) :
    matchAddToCartEmojiAt (emojiDirective pid sz qty).data =
      some ({ pid := pid, size := some sz, qty := some qty }, []) := by
  show matchAddToCartEmojiAt
      (strL "🛒 **ADD TO CART**:" ++ (strL " Product ID " ++ (pid ++
        (strL ", Size: " ++ (sz ++ (strL ", Quantity: " ++ qty)))))) = _
  rw [matchEmoji_head, matchBody_head,
    matchDirectiveRest_append pid _ hp (by
      intro c hc
      have h2 : some ',' = some c := hc
      cases h2
      decide),
    parseSizeGroup_append sz _ hs (by
      intro c hc
      have h2 : some ',' = some c := hc
      cases h2
      rfl)]
  simp [parseQtyGroup_append qty hq]

theorem matchEmoji_sizeOnly (pid sz : List Char) (hp : digitRun pid = true)
    (hs : sizeText sz = true) :
    matchAddToCartEmojiAt (emojiDirectiveSizeOnly pid sz).data =
      some ({ pid := pid, size := some sz, qty := none }, []) := by
  show matchAddToCartEmojiAt
      (strL "🛒 **ADD TO CART**:" ++ (strL " Product ID " ++ (pid ++
        (strL ", Size: " ++ (sz ++ []))))) = _
  rw [matchEmoji_head, matchBody_head,
    matchDirectiveRest_append pid _ hp (by
      intro c hc
      have h2 : some ',' = some c := hc
      cases h2
      decide),
    parseSizeGroup_append sz [] hs (fun c hc => Option.noConfusion hc)]
  simp [parseQtyGroup_nil]

theorem matchEmoji_qtyOnly (pid qty : List Char) (hp : digitRun pid = true)
    (hq : digitRun qty = true) :
    matchAddToCartEmojiAt (emojiDirectiveQtyOnly pid qty).data =
      some ({ pid := pid, size := none, qty := some qty }, []) := by
  show matchAddToCartEmojiAt
      (strL "🛒 **ADD TO CART**:" ++ (strL " Product ID " ++ (pid ++
        (strL ", Quantity: " ++ qty)))) = _
  rw [matchEmoji_head, matchBody_head,
    matchDirectiveRest_append pid _ hp (by
      intro c hc
      have h2 : some ',' = some c := hc
      cases h2
      decide),
    parseSizeGroup_quantity qty]
  simp [parseQtyGroup_append qty hq]

theorem matchEmoji_bare (pid : List Char) (hp : digitRun pid = true) :
    matchAddToCartEmojiAt (emojiDirectiveBare pid).data =
      some ({ pid := pid, size := none, qty := none }, []) := by
  show matchAddToCartEmojiAt
      (strL "🛒 **ADD TO CART**:" ++ (strL " Product ID " ++ (pid ++ []))) = _
  rw [matchEmoji_head, matchBody_head,
    matchDirectiveRest_append pid [] hp (fun c hc => Option.noConfusion hc)]
  simp [parseSizeGroup_nil, parseQtyGroup_nil]

theorem matchAlt_full (pid sz qty : List Char) (hp : digitRun pid = true)
    (hs : sizeText sz = true) (hq : digitRun qty = true) :
    matchAddToCartAltAt (plainDirective pid sz qty).data =
      some ({ pid := pid, size := some sz, qty := some qty }, []) := by
  show matchAddToCartAltAt
      (strL "ADD TO CART:" ++ (strL " Product ID " ++ (pid ++
        (strL ", Size: " ++ (sz ++ (strL ", Quantity: " ++ qty)))))) = _
  rw [matchAlt_head, matchBody_head,
    matchDirectiveRest_append pid _ hp (by
      intro c hc
      have h2 : some ',' = some c := hc
      cases h2
      decide),
    parseSizeGroup_append sz _ hs (by
      intro c hc
      have h2 : some ',' = some c := hc
      cases h2
      rfl)]
  simp [parseQtyGroup_append qty hq]

/-! The emoji pattern finds nothing in glyph-free text. -/

theorem matchEmojiAt_none {c : Char} (t : List Char) (h : c ≠ '🛒') :
    matchAddToCartEmojiAt (c :: t) = none := by
  unfold matchAddToCartEmojiAt
  have hlit : expectLit (strL "🛒") (c :: t) = none := by
    show (if '🛒' = c then expectLit [] t else none) = none
    rw [if_neg (fun he => h he.symm)]
  rw [hlit]

theorem scanAll_emoji_none : ∀ (n : Nat) (cs : List Char), (∀ c ∈ cs, c ≠ '🛒') →
    scanAll matchAddToCartEmojiAt n cs = [] := by
  intro n
  induction n with
  | zero => intro cs _; rfl
  | succ n ih =>
    intro cs h
    cases cs with
    | nil => rfl
    | cons c t =>
      simp [scanAll, matchEmojiAt_none t (h c (List.mem_cons_self c t)),
        ih t (fun x hx => h x (List.mem_cons_of_mem c hx))]

theorem findAll_emoji_none (cs : List Char) (h : ∀ c ∈ cs, c ≠ '🛒') :
    findAll matchAddToCartEmojiAt cs = [] := scanAll_emoji_none _ cs h

/-! Lifting a single directive match to the extractor. -/

theorem extract_of_primary (r : String) (d : RawDirective)
    (h : findAll matchAddToCartEmojiAt r.data = [d]) :
    extract_order_intent_from_response r =
      { has_order_action := true, action_type := some "add_to_cart"
      , items := [directiveItem d], instructions := [directiveInstruction d] } := by
  unfold extract_order_intent_from_response findDirectives
  simp [h]

theorem extract_of_alt (r : String) (d : RawDirective)
    (he : findAll matchAddToCartEmojiAt r.data = [])
    (h : findAll matchAddToCartAltAt r.data = [d]) :
    extract_order_intent_from_response r =
      { has_order_action := true, action_type := some "add_to_cart"
      , items := [directiveItem d], instructions := [directiveInstruction d] } := by
  unfold extract_order_intent_from_response findDirectives
  simp [he, h]

/-- C2 counterexample: dropping only the glyph while keeping the bold
markers — `**ADD TO CART**: Product ID 8, Size: .5 lb, Quantity: 1` — is "a
text of the claimed form with the glyph prefix omitted", yet it matches
neither pattern (the glyph-free alternative is the plain, unbolded
`ADD TO CART:`), so the extractor reports no action, refuting the claim as
stated. -/
theorem claim_C2_counterexample :
    extract_order_intent_from_response
      "**ADD TO CART**: Product ID 8, Size: .5 lb, Quantity: 1" =
      { has_order_action := false, action_type := none, items := [], instructions := [] } := by
  decide

/-- C2 (amended): directives of the form
`🛒 **ADD TO CART**: Product ID <digits>[, Size: <text>][, Quantity: <digits>]`
are extracted with `action_type = add_to_cart`, the parsed (stripped) size or
none, and the parsed quantity or default 1 — and the glyph-free variant must
also drop the bold markers (plain `ADD TO CART: Product ID ...`).  Multiple
directives in one message each yield an item (final concrete conjunct). -/
theorem claim_C2_amended :
    (∀ pid sz qty : List Char,
      digitRun pid = true → sizeText sz = true → digitRun qty = true →
      extract_order_intent_from_response (emojiDirective pid sz qty) =
        { has_order_action := true, action_type := some "add_to_cart"
        , items := [{ product_id := charsToNat pid, quantity := charsToNat qty
                    , size := some (String.mk (pyStripL sz)) }]
        , instructions := ["Add Product ID " ++ String.mk pid ++ " to cart"] }) ∧
    (∀ pid sz : List Char, digitRun pid = true → sizeText sz = true →
      extract_order_intent_from_response (emojiDirectiveSizeOnly pid sz) =
        { has_order_action := true, action_type := some "add_to_cart"
        , items := [{ product_id := charsToNat pid, quantity := 1
                    , size := some (String.mk (pyStripL sz)) }]
        , instructions := ["Add Product ID " ++ String.mk pid ++ " to cart"] }) ∧
    (∀ pid qty : List Char, digitRun pid = true → digitRun qty = true →
      extract_order_intent_from_response (emojiDirectiveQtyOnly pid qty) =
        { has_order_action := true, action_type := some "add_to_cart"
        , items := [{ product_id := charsToNat pid, quantity := charsToNat qty
                    , size := none }]
        , instructions := ["Add Product ID " ++ String.mk pid ++ " to cart"] }) ∧
    (∀ pid : List Char, digitRun pid = true →
      extract_order_intent_from_response (emojiDirectiveBare pid) =
        { has_order_action := true, action_type := some "add_to_cart"
        , items := [{ product_id := charsToNat pid, quantity := 1, size := none }]
        , instructions := ["Add Product ID " ++ String.mk pid ++ " to cart"] }) ∧
    (∀ pid sz qty : List Char,
      digitRun pid = true → sizeText sz = true → digitRun qty = true →
      (∀ c ∈ sz, c ≠ '🛒') →
      extract_order_intent_from_response (plainDirective pid sz qty) =
        { has_order_action := true, action_type := some "add_to_cart"
        , items := [{ product_id := charsToNat pid, quantity := charsToNat qty
                    , size := some (String.mk (pyStripL sz)) }]
        , instructions := ["Add Product ID " ++ String.mk pid ++ " to cart"] }) ∧
    extract_order_intent_from_response
      "🛒 **ADD TO CART**: Product ID 8, Size: .5 lb, Quantity: 1" =
      { has_order_action := true, action_type := some "add_to_cart"
      , items := [{ product_id := 8, quantity := 1, size := some ".5 lb" }]
      , instructions := ["Add Product ID 8 to cart"] } ∧
    extract_order_intent_from_response
      "🛒 **ADD TO CART**: Product ID 5, Size: 1 lb, Quantity: 1 and 🛒 **ADD TO CART**: Product ID 7, Quantity: 2" =
      { has_order_action := true, action_type := some "add_to_cart"
      , items := [{ product_id := 5, quantity := 1, size := some "1 lb" },
                  { product_id := 7, quantity := 2, size := none }]
      , instructions := ["Add Product ID 5 to cart", "Add Product ID 7 to cart"] } := by
  refine ⟨?_, ?_, ?_, ?_, ?_, by decide, by decide⟩
  · intro pid sz qty hp hs hq
    have hfa := findAll_single matchAddToCartEmojiAt (emojiDirective pid sz qty).data
      _ (matchEmoji_full pid sz qty hp hs hq)
      (List.append_ne_nil_of_left_ne_nil (by decide) _)
    rw [extract_of_primary _ _ hfa]
    simp [directiveItem, directiveInstruction]
  · intro pid sz hp hs
    have hfa := findAll_single matchAddToCartEmojiAt (emojiDirectiveSizeOnly pid sz).data
      _ (matchEmoji_sizeOnly pid sz hp hs)
      (List.append_ne_nil_of_left_ne_nil (by decide) _)
    rw [extract_of_primary _ _ hfa]
    simp [directiveItem, directiveInstruction]
  · intro pid qty hp hq
    have hfa := findAll_single matchAddToCartEmojiAt (emojiDirectiveQtyOnly pid qty).data
      _ (matchEmoji_qtyOnly pid qty hp hq)
      (List.append_ne_nil_of_left_ne_nil (by decide) _)
    rw [extract_of_primary _ _ hfa]
    simp [directiveItem, directiveInstruction]
  · intro pid hp
    have hfa := findAll_single matchAddToCartEmojiAt (emojiDirectiveBare pid).data
      _ (matchEmoji_bare pid hp)
      (List.append_ne_nil_of_left_ne_nil (by decide) _)
    rw [extract_of_primary _ _ hfa]
    simp [directiveItem, directiveInstruction]
  · intro pid sz qty hp hs hq hglyph
    have hall : ∀ c ∈ (plainDirective pid sz qty).data, c ≠ '🛒' := by
      intro c hc
      rw [show (plainDirective pid sz qty).data =
        strL "ADD TO CART:" ++ (strL " Product ID " ++ (pid ++
          (strL ", Size: " ++ (sz ++ (strL ", Quantity: " ++ qty))))) from rfl] at hc
      simp only [List.mem_append] at hc
      rcases hc with h | h | h | h | h | h | h
      · intro he; subst he; exact absurd h (by decide)
      · intro he; subst he; exact absurd h (by decide)
      · exact ne_glyph_of_digit (digitRun_all hp c h)
      · intro he; subst he; exact absurd h (by decide)
      · exact hglyph c h
      · intro he; subst he; exact absurd h (by decide)
      · exact ne_glyph_of_digit (digitRun_all hq c h)
    have hemoji := findAll_emoji_none (plainDirective pid sz qty).data hall
    have hfa := findAll_single matchAddToCartAltAt (plainDirective pid sz qty).data
      _ (matchAlt_full pid sz qty hp hs hq)
      (List.append_ne_nil_of_left_ne_nil (by decide) _)
    rw [extract_of_alt _ _ hemoji hfa]
    simp [directiveItem, directiveInstruction]

theorem claim_C2_witness :
    (digitRun (strL "8") = true ∧ sizeText (strL ".5 lb") = true ∧
      digitRun (strL "1") = true) ∧
    extract_order_intent_from_response (emojiDirective (strL "8") (strL ".5 lb") (strL "1")) =
      { has_order_action := true, action_type := some "add_to_cart"
      , items := [{ product_id := charsToNat (strL "8"), quantity := charsToNat (strL "1")
                  , size := some (String.mk (pyStripL (strL ".5 lb"))) }]
      , instructions := ["Add Product ID " ++ String.mk (strL "8") ++ " to cart"] } ∧
    extract_order_intent_from_response (plainDirective (strL "12") (strL "1 lb") (strL "3")) =
      { has_order_action := true, action_type := some "add_to_cart"
      , items := [{ product_id := charsToNat (strL "12"), quantity := charsToNat (strL "3")
                  , size := some (String.mk (pyStripL (strL "1 lb"))) }]
      , instructions := ["Add Product ID " ++ String.mk (strL "12") ++ " to cart"] } :=
  ⟨⟨by decide, by decide, by decide⟩,
   claim_C2_amended.1 (strL "8") (strL ".5 lb") (strL "1")
     (by decide) (by decide) (by decide),
   (claim_C2_amended.2.2.2.2.1) (strL "12") (strL "1 lb") (strL "3")
     (by decide) (by decide) (by decide) (by decide)⟩

end CoffeeAI
